import Mathlib

/-!
Shallow embedding of the PyDash runner core: src/game_view.py (class GameView),
src/level_loader.py and src/settings.py.

Modelling conventions:
- Python floats are modelled as exact rationals.
- arcade sprite lists are Lean lists of a rectangle record; arcade collision
  checks are modelled as strict axis-aligned rectangle overlap.
- random.random() draws are supplied externally through a structure of draw
  streams; the angle/speed draws fed to math.cos and math.sin are modelled as
  directly drawn velocity components (trigonometry is not rational).
- rendering (textures, draw calls, text) is not modelled; texture pixel sizes,
  which are asset data not present in the sources, are a parameter record.
-/

namespace PyDash

/-- settings.py:2 -/
def WIDTH : ℚ := 960

/-- settings.py:2 -/
def HEIGHT : ℚ := 540

/-- settings.py:5 -/
def DEFAULT_SCROLL_SPEED : ℚ := 360

/-- settings.py:6 -/
def FLOOR_Y : ℤ := 120

/-- settings.py:7 -/
def PLAYER_SIZE : ℚ := 48

/-- settings.py:8 -/
def PLAYER_X : ℤ := 220

/-- settings.py:9 -/
def GRAVITY : ℚ := 1800

/-- settings.py:10 -/
def JUMP_VEL : ℚ := 820

/-- settings.py:11 -/
def COYOTE_TIME : ℚ := 0.08

/-- settings.py:12 -/
def JUMP_BUFFER : ℚ := 0.10

/-- settings.py:27 -/
def COIN_SIZE : ℚ := 16

/-- game_view.py:18, SPAWN_START = WIDTH + 80 -/
def SPAWN_START : ℚ := WIDTH + 80

/-- game_view.py:19 -/
def OB_H : ℚ := 36

/-- An arcade sprite reduced to its axis-aligned rectangle (center position and size). -/
structure Sprite where
  center_x : ℚ
  center_y : ℚ
  width : ℚ
  height : ℚ
deriving DecidableEq

def Sprite.left (s : Sprite) : ℚ := s.center_x - s.width / 2

def Sprite.right (s : Sprite) : ℚ := s.center_x + s.width / 2

def Sprite.top (s : Sprite) : ℚ := s.center_y + s.height / 2

def Sprite.bottom (s : Sprite) : ℚ := s.center_y - s.height / 2

/-- arcade.check_for_collision between two rectangle sprites, modelled as strict
axis-aligned rectangle overlap (touching edges do not collide). -/
def collides (a b : Sprite) : Bool :=
  decide (a.left < b.right ∧ b.left < a.right ∧ a.bottom < b.top ∧ b.bottom < a.top)

/-- RGBA color tuple. -/
abbrev Color := ℤ × ℤ × ℤ × ℤ

/-- game_view.py:22-33, dataclass Particle (draw method is rendering, omitted). -/
structure Particle where
  x : ℚ
  y : ℚ
  vx : ℚ
  vy : ℚ
  life : ℚ
  start_life : ℚ
  radius : ℚ
  color : Color
deriving DecidableEq

/-- game_view.py:27-31, Particle.update. -/
def Particle.update (p : Particle) (dt : ℚ) (gravity : ℚ) : Particle :=
  let vy := p.vy + gravity * dt
  { p with life := p.life - dt, vy := vy, x := p.x + p.vx * dt, y := p.y + vy * dt }

/-- game_view.py:33, Particle.alive property. -/
def Particle.is_alive (p : Particle) : Bool := decide (0 < p.life)

/-- A speed portal sprite: game_view.py:237-246, properties = {"speed": spd}. -/
structure SpeedPortal where
  sprite : Sprite
  speed : Option ℚ
deriving DecidableEq

/-- A gravity portal sprite: game_view.py:249-256, properties = {"dir": d}. -/
structure GravityPortal where
  sprite : Sprite
  dir : Option ℤ
deriving DecidableEq

/-- A jump pad sprite: game_view.py:259-266, properties = {"strength": v}. -/
structure JumpPad where
  sprite : Sprite
  strength : Option ℚ
deriving DecidableEq

/-- The mutable state of GameView that the simulation reads and writes
(game_view.py:43-118 and setup).  Rendering-only fields (textures, text
objects) are omitted; player_list always holds exactly the player sprite, so
the player is stored directly. -/
structure GameState where
  scroll_speed : ℚ
  bg_list : List Sprite
  ground_tiles : List Sprite
  ground_collision : List Sprite
  ceiling_collision : List Sprite
  obstacles : List Sprite
  spikes : List Sprite
  player : Sprite
  coins : List Sprite
  portals : List SpeedPortal
  gravity_portals : List GravityPortal
  jump_pads : List JumpPad
  vel_y : ℚ
  gravity_dir : ℤ
  on_ground : Bool
  coyote_timer : ℚ
  jump_buffer_timer : ℚ
  alive : Bool
  time_alive : ℚ
  score : ℤ
  next_spawn_x : ℚ
  coin_anim_t : ℚ
  player_anim_t : ℚ
  player_angle : ℚ
  dust_particles : List Particle
  sparkle_particles : List Particle
  death_particles : List Particle
  dust_accum : ℚ
  shake_time : ℚ
  shake_intensity : ℚ
deriving DecidableEq

/-- Draws for one dust particle: the four random.random() calls of
game_view.py:294-297. -/
structure DustDraw where
  r1 : ℚ
  r2 : ℚ
  r3 : ℚ
  r4 : ℚ

/-- Draws for one sparkle particle (game_view.py:302-308): the velocity vector
stands for cos/sin of the drawn angle times the drawn speed. -/
structure SparkDraw where
  vx : ℚ
  vy : ℚ
  rl : ℚ
  rr : ℚ

/-- Draws for one death-burst particle (game_view.py:313-320): velocity vector
as in SparkDraw, plus the random.choice between the two colors. -/
structure DeathDraw where
  vx : ℚ
  vy : ℚ
  rl : ℚ
  rr : ℚ
  white : Bool

/-- External random source for one tick: dust is indexed by burst and particle,
sparkles by coin hit and particle, death burst by particle. -/
structure Draws where
  dust : ℕ → ℕ → DustDraw
  spark : ℕ → ℕ → SparkDraw
  death : ℕ → DeathDraw

/-- game_view.py:285-299, GameView._emit_dust.  The while loop subtracting 0.04
from the accumulator is modelled by its iteration count, the floor of
accum / 0.04. -/
def emit_dust (rng : Draws) (dt : ℚ) (s : GameState) : GameState :=
  let accum := s.dust_accum + dt
  if s.on_ground then
    let n : ℕ := (⌊accum / (0.04 : ℚ)⌋).toNat
    let px := s.player.center_x - s.player.width * 0.45
    let py := s.player.center_y - s.player.height * 0.5 * (s.gravity_dir : ℚ)
    let burst := (List.range n).flatMap (fun i => (List.range 2).map (fun j =>
      let d := rng.dust i j
      let vx := -80 - d.r1 * 80
      let vy := 60 + d.r2 * 40
      let life := 0.35 + d.r3 * 0.15
      ({ x := px, y := py, vx := vx, vy := vy * (s.gravity_dir : ℚ),
         life := life, start_life := life, radius := 2 + d.r4 * 2,
         color := (200, 200, 220, 180) } : Particle)))
    { s with dust_accum := accum - n * (0.04 : ℚ),
             dust_particles := s.dust_particles ++ burst }
  else
    { s with dust_accum := accum }

/-- game_view.py:301-310, GameView._emit_coin_sparkles for the k-th coin hit of
the tick. -/
def emit_coin_sparkles (rng : Draws) (k : ℕ) (x y : ℚ) : List Particle :=
  (List.range 12).map (fun j =>
    let d := rng.spark k j
    let life := 0.4 + d.rl * 0.2
    { x := x, y := y, vx := d.vx, vy := d.vy, life := life, start_life := life,
      radius := 2 + d.rr * 1.5, color := (255, 215, 80, 255) })

/-- game_view.py:312-323, GameView._emit_death_burst. -/
def emit_death_burst (rng : Draws) (x y : ℚ) (s : GameState) : GameState :=
  let burst := (List.range 40).map (fun i =>
    let d := rng.death i
    let life := 0.6 + d.rl * 0.4
    ({ x := x, y := y, vx := d.vx, vy := d.vy, life := life, start_life := life,
       radius := 2 + d.rr * 3,
       color := if d.white then (255, 255, 255, 220) else (240, 80, 80, 240) } : Particle))
  { s with death_particles := s.death_particles ++ burst,
           shake_time := 0.35, shake_intensity := 6 }

/-- game_view.py:331-335, GameView._do_jump. -/
def do_jump (s : GameState) : GameState :=
  { s with vel_y := JUMP_VEL * (s.gravity_dir : ℚ), on_ground := false,
           coyote_timer := 0, jump_buffer_timer := 0 }

/-- game_view.py:325-329, GameView._queue_jump. -/
def queue_jump (s : GameState) : GameState :=
  if s.alive then
    let s := { s with jump_buffer_timer := JUMP_BUFFER }
    if s.on_ground = true ∨ 0 < s.coyote_timer then do_jump s else s
  else s

/-- game_view.py:355-357, elapsed-time and animation accumulators. -/
def time_phase (dt : ℚ) (s : GameState) : GameState :=
  { s with time_alive := s.time_alive + dt, coin_anim_t := s.coin_anim_t + dt,
           player_anim_t := s.player_anim_t + dt }

/-- game_view.py:359-368, background parallax move and recycle.  Assigning to
sprite.left moves the sprite center by the same amount. -/
def bg_phase (dt : ℚ) (s : GameState) : GameState :=
  { s with bg_list :=
      let moved := s.bg_list.map (fun b => { b with center_x := b.center_x - 30 * dt })
      match moved with
      | [] => moved
      | b0 :: _ =>
        moved.map (fun b => if b.right < 0 then { b with center_x := b.center_x + b0.width * 2 } else b) }

/-- game_view.py:370-375, world scroll of every world-space entity. -/
def scroll_phase (dt : ℚ) (s : GameState) : GameState :=
  let dx := s.scroll_speed * dt
  let m := fun (sp : Sprite) => { sp with center_x := sp.center_x - dx }
  { s with ground_collision := s.ground_collision.map m,
           ceiling_collision := s.ceiling_collision.map m,
           obstacles := s.obstacles.map m,
           spikes := s.spikes.map m,
           coins := s.coins.map m,
           portals := s.portals.map (fun p => { p with sprite := m p.sprite }),
           gravity_portals := s.gravity_portals.map (fun p => { p with sprite := m p.sprite }),
           jump_pads := s.jump_pads.map (fun p => { p with sprite := m p.sprite }),
           ground_tiles := s.ground_tiles.map m }

/-- game_view.py:377-382, extend the ground and ceiling colliders (arcade grows
a sprite width around its center).  The source indexes element 0 of both lists,
which raises IndexError when empty; setup always creates singletons, and the
empty case is modelled as a no-op. -/
def extend_phase (s : GameState) : GameState :=
  match s.ground_collision, s.ceiling_collision with
  | g :: gs, c :: cs =>
    if g.right < WIDTH * 2 then
      { s with ground_collision := { g with width := g.width + WIDTH } :: gs,
               ceiling_collision := { c with width := c.width + WIDTH } :: cs }
    else s
  | _, _ => s

/-- game_view.py:384-387, recycle decorative ground tiles. -/
def recycle_phase (s : GameState) : GameState :=
  { s with ground_tiles := s.ground_tiles.map (fun t =>
      if t.right < -64 then { t with center_x := t.center_x + (WIDTH * 4 + 64) } else t) }

/-- game_view.py:389-393, prune entities whose right edge is left of -200. -/
def prune_phase (s : GameState) : GameState :=
  { s with obstacles := s.obstacles.filter (fun sp => !(decide (sp.right < -200))),
           spikes := s.spikes.filter (fun sp => !(decide (sp.right < -200))),
           coins := s.coins.filter (fun sp => !(decide (sp.right < -200))),
           portals := s.portals.filter (fun p => !(decide (p.sprite.right < -200))),
           gravity_portals := s.gravity_portals.filter (fun p => !(decide (p.sprite.right < -200))),
           jump_pads := s.jump_pads.filter (fun p => !(decide (p.sprite.right < -200))) }

/-- game_view.py:395-397, vertical physics integration under signed gravity. -/
def integrate_phase (dt : ℚ) (s : GameState) : GameState :=
  let v := s.vel_y + (-GRAVITY * (s.gravity_dir : ℚ)) * dt
  { s with vel_y := v, player := { s.player with center_y := s.player.center_y + v * dt } }

/-- Maximum top edge of a nonempty hit list, game_view.py:404. -/
def max_tops : List Sprite → ℚ
  | [] => 0
  | h :: t => t.foldl (fun m x => max m x.top) h.top

/-- Minimum bottom edge of a nonempty hit list, game_view.py:411. -/
def min_bottoms : List Sprite → ℚ
  | [] => 0
  | h :: t => t.foldl (fun m x => min m x.bottom) h.bottom

/-- game_view.py:399-414, ground/ceiling contact resolution. -/
def resolve_phase (s : GameState) : GameState :=
  let s := { s with on_ground := false }
  if 0 < s.gravity_dir then
    let hits := s.ground_collision.filter (fun h => collides s.player h)
    if hits ≠ [] ∧ s.vel_y ≤ 0 then
      { s with player := { s.player with center_y := max_tops hits + s.player.height / 2 },
               vel_y := 0, on_ground := true }
    else s
  else
    let hits := s.ceiling_collision.filter (fun h => collides s.player h)
    if hits ≠ [] ∧ 0 ≤ s.vel_y then
      { s with player := { s.player with center_y := min_bottoms hits - s.player.height / 2 },
               vel_y := 0, on_ground := true }
    else s

/-- game_view.py:416-425, coyote timer refill/decay and jump buffer resolution. -/
def coyote_buffer_phase (dt : ℚ) (s : GameState) : GameState :=
  let s := if s.on_ground then { s with coyote_timer := COYOTE_TIME }
           else { s with coyote_timer := max 0 (s.coyote_timer - dt) }
  if 0 < s.jump_buffer_timer then
    if s.on_ground = true ∨ 0 < s.coyote_timer then do_jump s
    else { s with jump_buffer_timer := s.jump_buffer_timer - dt }
  else s

/-- game_view.py:427-437, dust emission and player orientation (texture frame
selection is rendering and not modelled). -/
def dust_anim_phase (rng : Draws) (dt : ℚ) (s : GameState) : GameState :=
  let s := emit_dust rng dt s
  { s with player_angle := if s.gravity_dir < 0 then 180 else 0 }

/-- game_view.py:439-443, coin pickups: sparkle burst, removal, +10 score per
hit coin. -/
def coin_phase (rng : Draws) (s : GameState) : GameState :=
  let hits := s.coins.filter (fun c => collides s.player c)
  { s with sparkle_particles := s.sparkle_particles ++
             (hits.enum.flatMap (fun kc => emit_coin_sparkles rng kc.1 kc.2.center_x kc.2.center_y)),
           coins := s.coins.filter (fun c => !(collides s.player c)),
           score := s.score + 10 * hits.length }

/-- game_view.py:445-448, speed portals: each hit portal sets the scroll speed
to its carried value (defaulting to the current speed) and is removed. -/
def speed_portal_phase (s : GameState) : GameState :=
  let hits := s.portals.filter (fun p => collides s.player p.sprite)
  { s with scroll_speed := hits.foldl (fun sp p => p.speed.getD sp) s.scroll_speed,
           portals := s.portals.filter (fun p => !(collides s.player p.sprite)) }

/-- game_view.py:451-457, the body of the gravity-portal loop for one portal. -/
def gravity_portal_step (s : GameState) (g : GravityPortal) : GameState :=
  let nd := g.dir.getD (-s.gravity_dir)
  let nd := if nd = 1 ∨ nd = -1 then nd else -s.gravity_dir
  if nd ≠ s.gravity_dir then { s with gravity_dir := nd, vel_y := 0 } else s

/-- game_view.py:450-458, gravity portals: the hit list is computed once, each
hit is processed in order, and every hit portal is removed. -/
def gravity_portal_phase (s : GameState) : GameState :=
  let hits := s.gravity_portals.filter (fun g => collides s.player g.sprite)
  { hits.foldl gravity_portal_step s with
      gravity_portals := s.gravity_portals.filter (fun g => !(collides s.player g.sprite)) }

/-- game_view.py:461-467, the body of the jump-pad loop for one pad. -/
def jump_pad_step (s : GameState) (p : JumpPad) : GameState :=
  let strength := p.strength.getD 1
  let target := JUMP_VEL * (s.gravity_dir : ℚ) * strength
  let s := if (0 < s.gravity_dir ∧ s.vel_y < target) ∨ (s.gravity_dir < 0 ∧ target < s.vel_y)
           then { s with vel_y := target } else s
  { s with on_ground := false, coyote_timer := 0 }

/-- game_view.py:460-468, jump pads: hit list computed once, processed in
order, every hit pad removed. -/
def jump_pad_phase (s : GameState) : GameState :=
  let hits := s.jump_pads.filter (fun p => collides s.player p.sprite)
  { hits.foldl jump_pad_step s with
      jump_pads := s.jump_pads.filter (fun p => !(collides s.player p.sprite)) }

/-- game_view.py:471-472, the death condition: obstacle overlap or vertical
out of bounds. -/
def death_check (s : GameState) : Bool :=
  !(s.obstacles.filter (fun ob => collides s.player ob)).isEmpty ||
    decide (s.player.center_y < -200) || decide (HEIGHT + 200 < s.player.center_y)

/-- game_view.py:470-474, death transition: clear alive and emit the death
burst at the player position. -/
def death_phase (rng : Draws) (s : GameState) : GameState :=
  if death_check s then
    emit_death_burst rng s.player.center_x s.player.center_y { s with alive := false }
  else s

/-- game_view.py:479-486, GameView._update_particles: every particle of each
pool is updated with the pool gravity, then expired particles are removed. -/
def update_particles_phase (dt : ℚ) (s : GameState) : GameState :=
  { s with dust_particles := (s.dust_particles.map (fun p => p.update dt (-400))).filter Particle.is_alive,
           sparkle_particles := (s.sparkle_particles.map (fun p => p.update dt 0)).filter Particle.is_alive,
           death_particles := (s.death_particles.map (fun p => p.update dt (-300))).filter Particle.is_alive }

/-- game_view.py:488-490, GameView._update_shake. -/
def update_shake_phase (dt : ℚ) (s : GameState) : GameState :=
  if 0 < s.shake_time then { s with shake_time := max 0 (s.shake_time - dt) } else s

/-- The alive-branch prefix of on_update up to and including physics
integration (game_view.py:355-397). -/
def pre_resolve (dt : ℚ) (s : GameState) : GameState :=
  integrate_phase dt (prune_phase (recycle_phase (extend_phase (scroll_phase dt (bg_phase dt (time_phase dt s))))))

/-- State of the tick right after ground/ceiling resolution (game_view.py:414). -/
def mid_resolve (dt : ℚ) (s : GameState) : GameState :=
  resolve_phase (pre_resolve dt s)

/-- State of the tick right after jump-buffer resolution (game_view.py:425). -/
def mid_buffer (dt : ℚ) (s : GameState) : GameState :=
  coyote_buffer_phase dt (mid_resolve dt s)

/-- State of the tick right before the death check (game_view.py:468). -/
def pre_death (rng : Draws) (dt : ℚ) (s : GameState) : GameState :=
  jump_pad_phase (gravity_portal_phase (speed_portal_phase (coin_phase rng (dust_anim_phase rng dt (mid_buffer dt s)))))

/-- game_view.py:351-477, GameView.on_update: the whole simulation tick.  When
dead, only particles and shake keep updating (lines 352-353). -/
def on_update (rng : Draws) (dt : ℚ) (s : GameState) : GameState :=
  if s.alive then
    update_shake_phase dt (update_particles_phase dt (death_phase rng (pre_death rng dt s)))
  else
    update_shake_phase dt (update_particles_phase dt s)

/-! Level description and GameView.setup. -/

/-- One entry of the level obstacle list (game_view.py:133-138): either a bare
gap number, or a mapping with optional gap and width. -/
inductive ObstacleEntry
  | gapOnly (gap : ℤ)
  | withWidth (gap : Option ℤ) (width : Option ℤ)
deriving DecidableEq

/-- A coin entry {x, y} (game_view.py:140). -/
structure CoinEntry where
  x : ℤ
  y : ℤ
deriving DecidableEq

/-- A speed-portal entry {x, speed} (game_view.py:141). -/
structure SpeedPortalEntry where
  x : ℤ
  speed : ℚ
deriving DecidableEq

/-- A gravity-portal entry {x, dir} with optional dir (game_view.py:142). -/
structure GravityPortalEntry where
  x : ℤ
  dir : Option ℤ
deriving DecidableEq

/-- A jump-pad entry {x, strength} with optional strength (game_view.py:143). -/
structure JumpPadEntry where
  x : ℤ
  strength : Option ℚ
deriving DecidableEq

/-- The level description after JSON decoding and numeric coercion, as consumed
by GameView.setup (game_view.py:124-143).  Absent optional keys are None. -/
structure LevelData where
  scroll_speed : Option ℚ
  floor_y : Option ℤ
  player_x : Option ℤ
  default_obstacle_width : Option ℤ
  obstacles : List ObstacleEntry
  coins : List CoinEntry
  speed_portals : List SpeedPortalEntry
  gravity_portals : List GravityPortalEntry
  jump_pads : List JumpPadEntry
deriving DecidableEq

/-- Pixel sizes of the loaded textures (asset files, not present in the
sources); a parameter of the embedding. -/
structure Textures where
  bg_w : ℚ
  bg_h : ℚ
  ground_w : ℚ
  ground_h : ℚ
  spike_w : ℚ
  spike_h : ℚ
  portal_speed_w : ℚ
  portal_speed_h : ℚ
  portal_gravity_w : ℚ
  portal_gravity_h : ℚ
  pad_jump_w : ℚ
  pad_jump_h : ℚ

/-- game_view.py:131-138, the (gap, width) obstacle plan with defaults. -/
def obstacle_plan (d : LevelData) : List (ℤ × ℤ) :=
  let default_w := d.default_obstacle_width.getD 30
  d.obstacles.map (fun it =>
    match it with
    | .gapOnly g => (g, default_w)
    | .withWidth g w => (g.getD 240, w.getD default_w))

/-- Python round() (banker's rounding, round half to even). -/
def pyRound (q : ℚ) : ℤ :=
  let f := ⌊q⌋
  let r := q - f
  if r < 1 / 2 then f
  else if 1 / 2 < r then f + 1
  else if f % 2 = 0 then f else f + 1

/-- game_view.py:268-273, GameView._create_obstacle (sprite geometry only). -/
def create_obstacle (x : ℚ) (w : ℚ) (floor_y : ℚ) : Sprite :=
  { center_x := x + w / 2, center_y := floor_y + OB_H / 2, width := w, height := OB_H }

/-- game_view.py:275-283, GameView._create_spikes_for_obstacle.  Assigning
sprite.bottom places the center half a height above it. -/
def spikes_for (tex : Textures) (ob : Sprite) : List Sprite :=
  let count := (max 1 (pyRound (ob.width / tex.spike_w))).toNat
  let pitch := ob.width / count
  (List.range count).map (fun i =>
    { center_x := ob.left + pitch * ((i : ℚ) + 0.5),
      center_y := ob.top + tex.spike_h / 2,
      width := tex.spike_w, height := tex.spike_h })

/-- game_view.py:220-226, the setup loop over the obstacle plan: returns the
obstacle sprites in order and the final spawn cursor. -/
def build_obstacles : List (ℤ × ℤ) → ℚ → ℚ → List Sprite × ℚ
  | [], x, _ => ([], x)
  | (gap, w) :: rest, x, floor_y =>
    let ob := create_obstacle x (w : ℚ) floor_y
    let (obs, xf) := build_obstacles rest (x + (gap : ℚ)) floor_y
    (ob :: obs, xf)

/-- game_view.py:184-197, decorative ground tiles.  The source loops
x = 0, tile_w, 2*tile_w, ... while x < span_w; the iteration count is the
ceiling of span_w / tile_w (a nonpositive tile width would loop forever in the
source and is modelled as no tiles). -/
def build_ground_tiles (tex : Textures) (floor_y : ℚ) : List Sprite :=
  let tile_w := tex.ground_w
  let tile_h := tex.ground_h
  let span_w := WIDTH * 4 + tile_w
  let count : ℕ := if 0 < tile_w then (⌈span_w / tile_w⌉).toNat else 0
  (List.range count).map (fun i =>
    { center_x := (i : ℚ) * tile_w + tile_w / 2,
      center_y := floor_y - tile_h + tile_h / 2,
      width := tile_w, height := tile_h })

/-- game_view.py:124-266, GameView.setup given already-validated level data.
Every gameplay field is reassigned from the level data and constants, so the
result does not depend on the previous state. -/
def setup (tex : Textures) (d : LevelData) : GameState :=
  let scroll_speed := d.scroll_speed.getD DEFAULT_SCROLL_SPEED
  let floor_y : ℚ := (d.floor_y.getD FLOOR_Y : ℤ)
  let player_x : ℚ := (d.player_x.getD PLAYER_X : ℤ)
  let plan := obstacle_plan d
  let bg_scale := HEIGHT / tex.bg_h
  let bg_w := tex.bg_w * bg_scale
  let ground_h : ℚ := 40
  let obs := build_obstacles plan SPAWN_START floor_y
  { scroll_speed := scroll_speed,
    bg_list := (List.range 2).map (fun i =>
      { center_x := (i : ℚ) * bg_w + bg_w / 2, center_y := HEIGHT / 2,
        width := bg_w, height := tex.bg_h * bg_scale }),
    ground_tiles := build_ground_tiles tex floor_y,
    ground_collision := [{ center_x := WIDTH * 2, center_y := floor_y - ground_h / 2,
                           width := WIDTH * 4, height := ground_h }],
    ceiling_collision := [{ center_x := WIDTH * 2, center_y := (HEIGHT - floor_y) + ground_h / 2,
                            width := WIDTH * 4, height := ground_h }],
    obstacles := obs.1,
    spikes := obs.1.flatMap (spikes_for tex),
    player := { center_x := player_x + PLAYER_SIZE / 2, center_y := floor_y + PLAYER_SIZE / 2,
                width := PLAYER_SIZE, height := PLAYER_SIZE },
    coins := d.coins.map (fun c =>
      { center_x := (c.x : ℚ), center_y := (c.y : ℚ), width := COIN_SIZE, height := COIN_SIZE }),
    portals := d.speed_portals.map (fun p =>
      { sprite := { center_x := (p.x : ℚ), center_y := floor_y + tex.portal_speed_h * 0.5,
                    width := tex.portal_speed_w, height := tex.portal_speed_h },
        speed := some p.speed }),
    gravity_portals := d.gravity_portals.map (fun p =>
      { sprite := { center_x := (p.x : ℚ), center_y := floor_y + tex.portal_gravity_h * 0.5,
                    width := tex.portal_gravity_w, height := tex.portal_gravity_h },
        dir := some (if (0 : ℤ) ≤ p.dir.getD (-1) then 1 else -1) }),
    jump_pads := d.jump_pads.map (fun p =>
      { sprite := { center_x := (p.x : ℚ), center_y := floor_y + tex.pad_jump_h * 0.5,
                    width := tex.pad_jump_w, height := tex.pad_jump_h },
        strength := some (max 0.2 (p.strength.getD 1)) }),
    vel_y := 0,
    gravity_dir := 1,
    on_ground := true,
    coyote_timer := 0,
    jump_buffer_timer := 0,
    alive := true,
    time_alive := 0,
    score := 0,
    next_spawn_x := obs.2,
    coin_anim_t := 0,
    player_anim_t := 0,
    player_angle := 0,
    dust_particles := [],
    sparkle_particles := [],
    death_particles := [],
    dust_accum := 0,
    shake_time := 0,
    shake_intensity := 0 }

/-- game_view.py:340-341, pressing R calls setup; the previous state is
discarded entirely. -/
def restart (_prev : GameState) (tex : Textures) (d : LevelData) : GameState :=
  setup tex d

/-! level_loader.py and the raw-JSON view needed by its validation. -/

/-- A decoded Python/JSON value. -/
inductive PyVal
  | null
  | bool (b : Bool)
  | int (n : ℤ)
  | float (q : ℚ)
  | str (s : String)
  | list (xs : List PyVal)
  | dict (kvs : List (String × PyVal))

/-- A JSON level file whose top level is an object, as a key-value list. -/
abbrev LevelJson := List (String × PyVal)

/-- The error text of level_loader.py:13 (quotes simplified). -/
def levelErrMsg : String := "Level JSON must include an obstacles list"

/-- True when the data has an "obstacles" key holding a list
(level_loader.py:12). -/
def has_obstacles_list (j : LevelJson) : Bool :=
  match j.lookup "obstacles" with
  | some (.list _) => true
  | _ => false

/-- level_loader.py:7-14, load_level after json decoding: validate and return
the data unchanged, raising ValueError otherwise. -/
def load_level (j : LevelJson) : Except String LevelJson :=
  if has_obstacles_list j then .ok j else .error levelErrMsg

/-- Python int() on a decoded JSON number (string coercion is not modelled;
truncation is toward zero). -/
def pyInt : PyVal → Except String ℤ
  | .bool b => .ok (if b then 1 else 0)
  | .int n => .ok n
  | .float q => .ok (if 0 ≤ q then ⌊q⌋ else ⌈q⌉)
  | _ => .error "TypeError: int"

/-- Python float() on a decoded JSON number. -/
def pyFloat : PyVal → Except String ℚ
  | .bool b => .ok (if b then 1 else 0)
  | .int n => .ok (n : ℚ)
  | .float q => .ok q
  | _ => .error "TypeError: float"

/-- dict.get k on an object followed by int(), with absent keys kept as None. -/
def optIntField (kvs : List (String × PyVal)) (k : String) : Except String (Option ℤ) :=
  match kvs.lookup k with
  | none => .ok none
  | some v => (pyInt v).map some

/-- dict.get k on an object followed by float(), with absent keys kept as None. -/
def optFloatField (kvs : List (String × PyVal)) (k : String) : Except String (Option ℚ) :=
  match kvs.lookup k with
  | none => .ok none
  | some v => (pyFloat v).map some

/-- Required key access d[k] followed by int() (KeyError when absent). -/
def reqIntField (kvs : List (String × PyVal)) (k : String) : Except String ℤ :=
  match kvs.lookup k with
  | none => .error "KeyError"
  | some v => pyInt v

/-- Required key access d[k] followed by float() (KeyError when absent). -/
def reqFloatField (kvs : List (String × PyVal)) (k : String) : Except String ℚ :=
  match kvs.lookup k with
  | none => .error "KeyError"
  | some v => pyFloat v

/-- One item of the obstacles list (game_view.py:133-138). -/
def parseObstacleItem : PyVal → Except String ObstacleEntry
  | .dict kvs => do
    let g ← optIntField kvs "gap"
    let w ← optIntField kvs "width"
    pure (.withWidth g w)
  | v => do
    let g ← pyInt v
    pure (.gapOnly g)

/-- Elementwise parse of an optional list-valued key (data.get(k, [])). -/
def listField (kvs : List (String × PyVal)) (k : String)
    (f : PyVal → Except String α) : Except String (List α) :=
  match kvs.lookup k with
  | none => .ok []
  | some (.list xs) => xs.mapM f
  | some _ => .error "TypeError: not a list"

/-- The numeric coercions of game_view.py:127-143 applied to validated raw
level data, producing the typed LevelData that setup consumes. -/
def parse_level (j : LevelJson) : Except String LevelData := do
  let ss ← optFloatField j "scroll_speed"
  let fy ← optIntField j "floor_y"
  let px ← optIntField j "player_x"
  let dw ← optIntField j "default_obstacle_width"
  let obstacles ← (match j.lookup "obstacles" with
    | some (.list xs) => xs.mapM parseObstacleItem
    | _ => .error levelErrMsg)
  let coins ← listField j "coins" (fun v => match v with
    | .dict kvs => do
      let x ← reqIntField kvs "x"
      let y ← reqIntField kvs "y"
      pure ({ x := x, y := y } : CoinEntry)
    | _ => .error "TypeError")
  let speed_portals ← listField j "speed_portals" (fun v => match v with
    | .dict kvs => do
      let x ← reqIntField kvs "x"
      let spd ← reqFloatField kvs "speed"
      pure ({ x := x, speed := spd } : SpeedPortalEntry)
    | _ => .error "TypeError")
  let gravity_portals ← listField j "gravity_portals" (fun v => match v with
    | .dict kvs => do
      let x ← reqIntField kvs "x"
      let dir ← optIntField kvs "dir"
      pure ({ x := x, dir := dir } : GravityPortalEntry)
    | _ => .error "TypeError")
  let jump_pads ← listField j "jump_pads" (fun v => match v with
    | .dict kvs => do
      let x ← reqIntField kvs "x"
      let st ← optFloatField kvs "strength"
      pure ({ x := x, strength := st } : JumpPadEntry)
    | _ => .error "TypeError")
  pure { scroll_speed := ss, floor_y := fy, player_x := px,
         default_obstacle_width := dw, obstacles := obstacles, coins := coins,
         speed_portals := speed_portals, gravity_portals := gravity_portals,
         jump_pads := jump_pads }

/-- setup driven by a raw level file: the source calls load_level first
(game_view.py:125), so a validation failure is surfaced before any entity is
constructed. -/
def setup_from_json (tex : Textures) (j : LevelJson) : Except String GameState := do
  let data ← load_level j
  let d ← parse_level data
  pure (setup tex d)

/-- A run of consecutive ticks: fold on_update over a list of frame times,
drawing the i-th tick's randomness from the i-th element of a stream. -/
def run_ticks (rngs : ℕ → Draws) : List ℚ → ℕ → GameState → GameState
  | [], _, s => s
  | dt :: rest, i, s => run_ticks rngs rest (i + 1) (on_update (rngs i) dt s)

/-- Modelled from the spec (section 4.1 Level Plan and the section 8 scenario):
the i-th obstacle center sits at SPAWN_START plus the gaps of all earlier
entries plus half its own width. -/
def spec_obstacle_center_x (plan : List (ℤ × ℤ)) (i : ℕ) : ℚ :=
  SPAWN_START + (((plan.take i).map (fun gw => (gw.1 : ℚ))).sum) + ((plan.getD i (0, 0)).2 : ℚ) / 2

/-- Modelled from the spec (section 4.1 and the section 8 scenario): the
initial obstacle sprites the Level Plan specifies, each of height 36 with its
bottom on the floor. -/
def spec_initial_obstacles (plan : List (ℤ × ℤ)) (floor_y : ℚ) : List Sprite :=
  (List.range plan.length).map (fun i =>
    { center_x := spec_obstacle_center_x plan i,
      center_y := floor_y + OB_H / 2,
      width := ((plan.getD i (0, 0)).2 : ℚ),
      height := OB_H })

/-- Modelled from the spec (section 4.1): gravity-portal trigger semantics in
which an omitted level direction defaults to the flip of the player's gravity
direction at trigger time; the fold processes one tick's hit list in order. -/
def spec_trigger_dirs (start : ℤ) (entries : List (Option ℤ)) : ℤ :=
  entries.foldl (fun cur ed =>
    let nd := ed.getD (-cur)
    let nd := if nd = 1 ∨ nd = -1 then nd else -cur
    if nd ≠ cur then nd else cur) start

/-! Concrete fixtures used by witnesses and counterexamples. -/

/-- A deterministic random source drawing zeros. -/
def rng0 : Draws :=
  { dust := fun _ _ => ⟨0, 0, 0, 0⟩, spark := fun _ _ => ⟨0, 0, 0, 0⟩,
    death := fun _ => ⟨0, 0, 0, 0, false⟩ }

/-- Sample texture sizes (asset data is not in the sources). -/
def tex0 : Textures :=
  { bg_w := 960, bg_h := 540, ground_w := 3840, ground_h := 64, spike_w := 32, spike_h := 32,
    portal_speed_w := 48, portal_speed_h := 48, portal_gravity_w := 48, portal_gravity_h := 48,
    pad_jump_w := 48, pad_jump_h := 16 }

/-- A minimal in-flight state over the standard floor: airborne player above
the ground collider, no interactive entities. -/
def base_state : GameState :=
  { scroll_speed := 360, bg_list := [], ground_tiles := [],
    ground_collision := [⟨1920, 100, 3840, 40⟩], ceiling_collision := [⟨1920, 460, 3840, 40⟩],
    obstacles := [], spikes := [], player := ⟨244, 143, 48, 48⟩, coins := [],
    portals := [], gravity_portals := [], jump_pads := [],
    vel_y := 0, gravity_dir := 1, on_ground := false, coyote_timer := 0,
    jump_buffer_timer := 0, alive := true, time_alive := 0, score := 0,
    next_spawn_x := 0, coin_anim_t := 0, player_anim_t := 0, player_angle := 0,
    dust_particles := [], sparkle_particles := [], death_particles := [],
    dust_accum := 0, shake_time := 0, shake_intensity := 0 }

/-- A level with two gravity portals at the player x, the first with explicit
direction -1 and the second with the direction omitted. -/
def levelC2 : LevelData :=
  { scroll_speed := none, floor_y := none, player_x := none, default_obstacle_width := none,
    obstacles := [], coins := [], speed_portals := [],
    gravity_portals := [⟨244, some (-1)⟩, ⟨244, none⟩], jump_pads := [] }

/-- A falling player overlapping the ground collider. -/
def c1_state : GameState := { base_state with player := ⟨244, 140, 48, 48⟩, vel_y := -50 }

/-- A jump pad under the player carrying strength 2. -/
def c3_pad : JumpPad := { sprite := ⟨244, 140, 48, 16⟩, strength := some 2 }

/-- A death particle used by the dead-state fixture. -/
def c5_particle : Particle :=
  { x := 0, y := 0, vx := 0, vy := 0, life := 1, start_life := 1, radius := 2,
    color := (240, 80, 80, 240) }

/-- A dead state with a live death particle and a running shake. -/
def c5_state : GameState :=
  { base_state with alive := false, shake_time := 0.2, shake_intensity := 6, death_particles := [c5_particle] }

/-- A state holding entities already past the prune boundary. -/
def c7_state : GameState :=
  { base_state with obstacles := [⟨-300, 138, 30, 36⟩], coins := [⟨-400, 200, 16, 16⟩], jump_pads := [⟨⟨-500, 128, 48, 16⟩, some 1⟩] }

/-- A level file with a well-formed obstacles list. -/
def c8_good : LevelJson := [("obstacles", PyVal.list [])]

/-- A level file whose obstacles key holds a non-list. -/
def c8_bad : LevelJson := [("obstacles", PyVal.int 3)]

/-- A dead state for the jump-request no-op claim. -/
def c9_state : GameState := { base_state with alive := false }

/-! Frame lemmas: fields each phase leaves untouched. -/

@[simp] theorem time_phase_alive (dt : ℚ) (s : GameState) : (time_phase dt s).alive = s.alive := rfl

@[simp] theorem time_phase_gravity_dir (dt : ℚ) (s : GameState) : (time_phase dt s).gravity_dir = s.gravity_dir := rfl

@[simp] theorem time_phase_coyote (dt : ℚ) (s : GameState) : (time_phase dt s).coyote_timer = s.coyote_timer := rfl

@[simp] theorem time_phase_buffer (dt : ℚ) (s : GameState) : (time_phase dt s).jump_buffer_timer = s.jump_buffer_timer := rfl

@[simp] theorem bg_phase_alive (dt : ℚ) (s : GameState) : (bg_phase dt s).alive = s.alive := rfl

@[simp] theorem bg_phase_gravity_dir (dt : ℚ) (s : GameState) : (bg_phase dt s).gravity_dir = s.gravity_dir := rfl

@[simp] theorem bg_phase_coyote (dt : ℚ) (s : GameState) : (bg_phase dt s).coyote_timer = s.coyote_timer := rfl

@[simp] theorem bg_phase_buffer (dt : ℚ) (s : GameState) : (bg_phase dt s).jump_buffer_timer = s.jump_buffer_timer := rfl

@[simp] theorem scroll_phase_alive (dt : ℚ) (s : GameState) : (scroll_phase dt s).alive = s.alive := rfl

@[simp] theorem scroll_phase_gravity_dir (dt : ℚ) (s : GameState) : (scroll_phase dt s).gravity_dir = s.gravity_dir := rfl

@[simp] theorem scroll_phase_coyote (dt : ℚ) (s : GameState) : (scroll_phase dt s).coyote_timer = s.coyote_timer := rfl

@[simp] theorem scroll_phase_buffer (dt : ℚ) (s : GameState) : (scroll_phase dt s).jump_buffer_timer = s.jump_buffer_timer := rfl

@[simp] theorem extend_phase_alive (s : GameState) : (extend_phase s).alive = s.alive := by
  unfold extend_phase; (repeat' split) <;> rfl

@[simp] theorem extend_phase_gravity_dir (s : GameState) : (extend_phase s).gravity_dir = s.gravity_dir := by
  unfold extend_phase; (repeat' split) <;> rfl

@[simp] theorem extend_phase_coyote (s : GameState) : (extend_phase s).coyote_timer = s.coyote_timer := by
  unfold extend_phase; (repeat' split) <;> rfl

@[simp] theorem extend_phase_buffer (s : GameState) : (extend_phase s).jump_buffer_timer = s.jump_buffer_timer := by
  unfold extend_phase; (repeat' split) <;> rfl

@[simp] theorem extend_phase_obstacles (s : GameState) : (extend_phase s).obstacles = s.obstacles := by
  unfold extend_phase; (repeat' split) <;> rfl

@[simp] theorem extend_phase_coins (s : GameState) : (extend_phase s).coins = s.coins := by
  unfold extend_phase; (repeat' split) <;> rfl

@[simp] theorem extend_phase_portals (s : GameState) : (extend_phase s).portals = s.portals := by
  unfold extend_phase; (repeat' split) <;> rfl

@[simp] theorem extend_phase_gravity_portals (s : GameState) : (extend_phase s).gravity_portals = s.gravity_portals := by
  unfold extend_phase; (repeat' split) <;> rfl

@[simp] theorem extend_phase_jump_pads (s : GameState) : (extend_phase s).jump_pads = s.jump_pads := by
  unfold extend_phase; (repeat' split) <;> rfl

@[simp] theorem recycle_phase_alive (s : GameState) : (recycle_phase s).alive = s.alive := rfl

@[simp] theorem recycle_phase_gravity_dir (s : GameState) : (recycle_phase s).gravity_dir = s.gravity_dir := rfl

@[simp] theorem recycle_phase_coyote (s : GameState) : (recycle_phase s).coyote_timer = s.coyote_timer := rfl

@[simp] theorem recycle_phase_buffer (s : GameState) : (recycle_phase s).jump_buffer_timer = s.jump_buffer_timer := rfl

@[simp] theorem prune_phase_alive (s : GameState) : (prune_phase s).alive = s.alive := rfl

@[simp] theorem prune_phase_gravity_dir (s : GameState) : (prune_phase s).gravity_dir = s.gravity_dir := rfl

@[simp] theorem prune_phase_coyote (s : GameState) : (prune_phase s).coyote_timer = s.coyote_timer := rfl

@[simp] theorem prune_phase_buffer (s : GameState) : (prune_phase s).jump_buffer_timer = s.jump_buffer_timer := rfl

@[simp] theorem integrate_phase_alive (dt : ℚ) (s : GameState) : (integrate_phase dt s).alive = s.alive := rfl

@[simp] theorem integrate_phase_gravity_dir (dt : ℚ) (s : GameState) : (integrate_phase dt s).gravity_dir = s.gravity_dir := rfl

@[simp] theorem integrate_phase_coyote (dt : ℚ) (s : GameState) : (integrate_phase dt s).coyote_timer = s.coyote_timer := rfl

@[simp] theorem integrate_phase_buffer (dt : ℚ) (s : GameState) : (integrate_phase dt s).jump_buffer_timer = s.jump_buffer_timer := rfl

@[simp] theorem integrate_phase_obstacles (dt : ℚ) (s : GameState) : (integrate_phase dt s).obstacles = s.obstacles := rfl

@[simp] theorem integrate_phase_coins (dt : ℚ) (s : GameState) : (integrate_phase dt s).coins = s.coins := rfl

@[simp] theorem integrate_phase_portals (dt : ℚ) (s : GameState) : (integrate_phase dt s).portals = s.portals := rfl

@[simp] theorem integrate_phase_gravity_portals (dt : ℚ) (s : GameState) : (integrate_phase dt s).gravity_portals = s.gravity_portals := rfl

@[simp] theorem integrate_phase_jump_pads (dt : ℚ) (s : GameState) : (integrate_phase dt s).jump_pads = s.jump_pads := rfl

@[simp] theorem resolve_phase_alive (s : GameState) : (resolve_phase s).alive = s.alive := by
  simp only [resolve_phase]; (repeat' split) <;> rfl

@[simp] theorem resolve_phase_gravity_dir (s : GameState) : (resolve_phase s).gravity_dir = s.gravity_dir := by
  simp only [resolve_phase]; (repeat' split) <;> rfl

@[simp] theorem resolve_phase_coyote (s : GameState) : (resolve_phase s).coyote_timer = s.coyote_timer := by
  simp only [resolve_phase]; (repeat' split) <;> rfl

@[simp] theorem resolve_phase_buffer (s : GameState) : (resolve_phase s).jump_buffer_timer = s.jump_buffer_timer := by
  simp only [resolve_phase]; (repeat' split) <;> rfl

@[simp] theorem resolve_phase_obstacles (s : GameState) : (resolve_phase s).obstacles = s.obstacles := by
  simp only [resolve_phase]; (repeat' split) <;> rfl

@[simp] theorem resolve_phase_coins (s : GameState) : (resolve_phase s).coins = s.coins := by
  simp only [resolve_phase]; (repeat' split) <;> rfl

@[simp] theorem resolve_phase_portals (s : GameState) : (resolve_phase s).portals = s.portals := by
  simp only [resolve_phase]; (repeat' split) <;> rfl

@[simp] theorem resolve_phase_gravity_portals (s : GameState) : (resolve_phase s).gravity_portals = s.gravity_portals := by
  simp only [resolve_phase]; (repeat' split) <;> rfl

@[simp] theorem resolve_phase_jump_pads (s : GameState) : (resolve_phase s).jump_pads = s.jump_pads := by
  simp only [resolve_phase]; (repeat' split) <;> rfl

@[simp] theorem coyote_buffer_phase_alive (dt : ℚ) (s : GameState) : (coyote_buffer_phase dt s).alive = s.alive := by
  simp only [coyote_buffer_phase, do_jump]; (repeat' split) <;> rfl

@[simp] theorem coyote_buffer_phase_gravity_dir (dt : ℚ) (s : GameState) : (coyote_buffer_phase dt s).gravity_dir = s.gravity_dir := by
  simp only [coyote_buffer_phase, do_jump]; (repeat' split) <;> rfl

@[simp] theorem coyote_buffer_phase_obstacles (dt : ℚ) (s : GameState) : (coyote_buffer_phase dt s).obstacles = s.obstacles := by
  simp only [coyote_buffer_phase, do_jump]; (repeat' split) <;> rfl

@[simp] theorem coyote_buffer_phase_coins (dt : ℚ) (s : GameState) : (coyote_buffer_phase dt s).coins = s.coins := by
  simp only [coyote_buffer_phase, do_jump]; (repeat' split) <;> rfl

@[simp] theorem coyote_buffer_phase_portals (dt : ℚ) (s : GameState) : (coyote_buffer_phase dt s).portals = s.portals := by
  simp only [coyote_buffer_phase, do_jump]; (repeat' split) <;> rfl

@[simp] theorem coyote_buffer_phase_gravity_portals (dt : ℚ) (s : GameState) : (coyote_buffer_phase dt s).gravity_portals = s.gravity_portals := by
  simp only [coyote_buffer_phase, do_jump]; (repeat' split) <;> rfl

@[simp] theorem coyote_buffer_phase_jump_pads (dt : ℚ) (s : GameState) : (coyote_buffer_phase dt s).jump_pads = s.jump_pads := by
  simp only [coyote_buffer_phase, do_jump]; (repeat' split) <;> rfl

@[simp] theorem dust_anim_phase_alive (rng : Draws) (dt : ℚ) (s : GameState) : (dust_anim_phase rng dt s).alive = s.alive := by
  simp only [dust_anim_phase, emit_dust]; (repeat' split) <;> rfl

@[simp] theorem dust_anim_phase_gravity_dir (rng : Draws) (dt : ℚ) (s : GameState) : (dust_anim_phase rng dt s).gravity_dir = s.gravity_dir := by
  simp only [dust_anim_phase, emit_dust]; (repeat' split) <;> rfl

@[simp] theorem dust_anim_phase_on_ground (rng : Draws) (dt : ℚ) (s : GameState) : (dust_anim_phase rng dt s).on_ground = s.on_ground := by
  simp only [dust_anim_phase, emit_dust]; (repeat' split) <;> rfl

@[simp] theorem dust_anim_phase_coyote (rng : Draws) (dt : ℚ) (s : GameState) : (dust_anim_phase rng dt s).coyote_timer = s.coyote_timer := by
  simp only [dust_anim_phase, emit_dust]; (repeat' split) <;> rfl

@[simp] theorem dust_anim_phase_buffer (rng : Draws) (dt : ℚ) (s : GameState) : (dust_anim_phase rng dt s).jump_buffer_timer = s.jump_buffer_timer := by
  simp only [dust_anim_phase, emit_dust]; (repeat' split) <;> rfl

@[simp] theorem dust_anim_phase_vel_y (rng : Draws) (dt : ℚ) (s : GameState) : (dust_anim_phase rng dt s).vel_y = s.vel_y := by
  simp only [dust_anim_phase, emit_dust]; (repeat' split) <;> rfl

@[simp] theorem dust_anim_phase_obstacles (rng : Draws) (dt : ℚ) (s : GameState) : (dust_anim_phase rng dt s).obstacles = s.obstacles := by
  simp only [dust_anim_phase, emit_dust]; (repeat' split) <;> rfl

@[simp] theorem dust_anim_phase_coins (rng : Draws) (dt : ℚ) (s : GameState) : (dust_anim_phase rng dt s).coins = s.coins := by
  simp only [dust_anim_phase, emit_dust]; (repeat' split) <;> rfl

@[simp] theorem dust_anim_phase_portals (rng : Draws) (dt : ℚ) (s : GameState) : (dust_anim_phase rng dt s).portals = s.portals := by
  simp only [dust_anim_phase, emit_dust]; (repeat' split) <;> rfl

@[simp] theorem dust_anim_phase_gravity_portals (rng : Draws) (dt : ℚ) (s : GameState) : (dust_anim_phase rng dt s).gravity_portals = s.gravity_portals := by
  simp only [dust_anim_phase, emit_dust]; (repeat' split) <;> rfl

@[simp] theorem dust_anim_phase_jump_pads (rng : Draws) (dt : ℚ) (s : GameState) : (dust_anim_phase rng dt s).jump_pads = s.jump_pads := by
  simp only [dust_anim_phase, emit_dust]; (repeat' split) <;> rfl

@[simp] theorem dust_anim_phase_player (rng : Draws) (dt : ℚ) (s : GameState) : (dust_anim_phase rng dt s).player = s.player := by
  simp only [dust_anim_phase, emit_dust]; (repeat' split) <;> rfl

@[simp] theorem coin_phase_alive (rng : Draws) (s : GameState) : (coin_phase rng s).alive = s.alive := rfl

@[simp] theorem coin_phase_gravity_dir (rng : Draws) (s : GameState) : (coin_phase rng s).gravity_dir = s.gravity_dir := rfl

@[simp] theorem coin_phase_on_ground (rng : Draws) (s : GameState) : (coin_phase rng s).on_ground = s.on_ground := rfl

@[simp] theorem coin_phase_coyote (rng : Draws) (s : GameState) : (coin_phase rng s).coyote_timer = s.coyote_timer := rfl

@[simp] theorem coin_phase_buffer (rng : Draws) (s : GameState) : (coin_phase rng s).jump_buffer_timer = s.jump_buffer_timer := rfl

@[simp] theorem coin_phase_vel_y (rng : Draws) (s : GameState) : (coin_phase rng s).vel_y = s.vel_y := rfl

@[simp] theorem coin_phase_obstacles (rng : Draws) (s : GameState) : (coin_phase rng s).obstacles = s.obstacles := rfl

@[simp] theorem coin_phase_portals (rng : Draws) (s : GameState) : (coin_phase rng s).portals = s.portals := rfl

@[simp] theorem coin_phase_gravity_portals (rng : Draws) (s : GameState) : (coin_phase rng s).gravity_portals = s.gravity_portals := rfl

@[simp] theorem coin_phase_jump_pads (rng : Draws) (s : GameState) : (coin_phase rng s).jump_pads = s.jump_pads := rfl

@[simp] theorem coin_phase_player (rng : Draws) (s : GameState) : (coin_phase rng s).player = s.player := rfl

@[simp] theorem speed_portal_phase_alive (s : GameState) : (speed_portal_phase s).alive = s.alive := rfl

@[simp] theorem speed_portal_phase_gravity_dir (s : GameState) : (speed_portal_phase s).gravity_dir = s.gravity_dir := rfl

@[simp] theorem speed_portal_phase_on_ground (s : GameState) : (speed_portal_phase s).on_ground = s.on_ground := rfl

@[simp] theorem speed_portal_phase_coyote (s : GameState) : (speed_portal_phase s).coyote_timer = s.coyote_timer := rfl

@[simp] theorem speed_portal_phase_buffer (s : GameState) : (speed_portal_phase s).jump_buffer_timer = s.jump_buffer_timer := rfl

@[simp] theorem speed_portal_phase_vel_y (s : GameState) : (speed_portal_phase s).vel_y = s.vel_y := rfl

@[simp] theorem speed_portal_phase_obstacles (s : GameState) : (speed_portal_phase s).obstacles = s.obstacles := rfl

@[simp] theorem speed_portal_phase_coins (s : GameState) : (speed_portal_phase s).coins = s.coins := rfl

@[simp] theorem speed_portal_phase_gravity_portals (s : GameState) : (speed_portal_phase s).gravity_portals = s.gravity_portals := rfl

@[simp] theorem speed_portal_phase_jump_pads (s : GameState) : (speed_portal_phase s).jump_pads = s.jump_pads := rfl

@[simp] theorem speed_portal_phase_player (s : GameState) : (speed_portal_phase s).player = s.player := rfl

/-! Fold lemmas for the gravity-portal and jump-pad trigger loops. -/

theorem gravity_portal_step_frame (s : GameState) (g : GravityPortal) :
    (gravity_portal_step s g).alive = s.alive ∧
    (gravity_portal_step s g).on_ground = s.on_ground ∧
    (gravity_portal_step s g).coyote_timer = s.coyote_timer ∧
    (gravity_portal_step s g).jump_buffer_timer = s.jump_buffer_timer ∧
    (gravity_portal_step s g).player = s.player ∧
    (gravity_portal_step s g).obstacles = s.obstacles ∧
    (gravity_portal_step s g).coins = s.coins ∧
    (gravity_portal_step s g).portals = s.portals ∧
    (gravity_portal_step s g).gravity_portals = s.gravity_portals ∧
    (gravity_portal_step s g).jump_pads = s.jump_pads ∧
    (gravity_portal_step s g).score = s.score ∧
    (gravity_portal_step s g).scroll_speed = s.scroll_speed := by
  simp only [gravity_portal_step]; (repeat' split) <;> exact ⟨rfl, rfl, rfl, rfl, rfl, rfl, rfl, rfl, rfl, rfl, rfl, rfl⟩

theorem gravity_fold_frame (l : List GravityPortal) :
    ∀ s : GameState,
      (l.foldl gravity_portal_step s).alive = s.alive ∧
      (l.foldl gravity_portal_step s).on_ground = s.on_ground ∧
      (l.foldl gravity_portal_step s).coyote_timer = s.coyote_timer ∧
      (l.foldl gravity_portal_step s).jump_buffer_timer = s.jump_buffer_timer ∧
      (l.foldl gravity_portal_step s).player = s.player ∧
      (l.foldl gravity_portal_step s).obstacles = s.obstacles ∧
      (l.foldl gravity_portal_step s).coins = s.coins ∧
      (l.foldl gravity_portal_step s).portals = s.portals ∧
      (l.foldl gravity_portal_step s).gravity_portals = s.gravity_portals ∧
      (l.foldl gravity_portal_step s).jump_pads = s.jump_pads ∧
      (l.foldl gravity_portal_step s).score = s.score ∧
      (l.foldl gravity_portal_step s).scroll_speed = s.scroll_speed := by
  induction l with
  | nil => intro s; exact ⟨rfl, rfl, rfl, rfl, rfl, rfl, rfl, rfl, rfl, rfl, rfl, rfl⟩
  | cons g t ih =>
    intro s
    have h1 := gravity_portal_step_frame s g
    have h2 := ih (gravity_portal_step s g)
    simp only [List.foldl_cons]
    constructor
    · exact h2.1.trans h1.1
    constructor
    · exact h2.2.1.trans h1.2.1
    constructor
    · exact h2.2.2.1.trans h1.2.2.1
    constructor
    · exact h2.2.2.2.1.trans h1.2.2.2.1
    constructor
    · exact h2.2.2.2.2.1.trans h1.2.2.2.2.1
    constructor
    · exact h2.2.2.2.2.2.1.trans h1.2.2.2.2.2.1
    constructor
    · exact h2.2.2.2.2.2.2.1.trans h1.2.2.2.2.2.2.1
    constructor
    · exact h2.2.2.2.2.2.2.2.1.trans h1.2.2.2.2.2.2.2.1
    constructor
    · exact h2.2.2.2.2.2.2.2.2.1.trans h1.2.2.2.2.2.2.2.2.1
    constructor
    · exact h2.2.2.2.2.2.2.2.2.2.1.trans h1.2.2.2.2.2.2.2.2.2.1
    constructor
    · exact h2.2.2.2.2.2.2.2.2.2.2.1.trans h1.2.2.2.2.2.2.2.2.2.2.1
    · exact h2.2.2.2.2.2.2.2.2.2.2.2.trans h1.2.2.2.2.2.2.2.2.2.2.2

@[simp] theorem gravity_portal_phase_alive (s : GameState) : (gravity_portal_phase s).alive = s.alive := by
  simp only [gravity_portal_phase]; exact (gravity_fold_frame _ s).1

@[simp] theorem gravity_portal_phase_on_ground (s : GameState) : (gravity_portal_phase s).on_ground = s.on_ground := by
  simp only [gravity_portal_phase]; exact (gravity_fold_frame _ s).2.1

@[simp] theorem gravity_portal_phase_coyote (s : GameState) : (gravity_portal_phase s).coyote_timer = s.coyote_timer := by
  simp only [gravity_portal_phase]; exact (gravity_fold_frame _ s).2.2.1

@[simp] theorem gravity_portal_phase_buffer (s : GameState) : (gravity_portal_phase s).jump_buffer_timer = s.jump_buffer_timer := by
  simp only [gravity_portal_phase]; exact (gravity_fold_frame _ s).2.2.2.1

@[simp] theorem gravity_portal_phase_player (s : GameState) : (gravity_portal_phase s).player = s.player := by
  simp only [gravity_portal_phase]; exact (gravity_fold_frame _ s).2.2.2.2.1

@[simp] theorem gravity_portal_phase_obstacles (s : GameState) : (gravity_portal_phase s).obstacles = s.obstacles := by
  simp only [gravity_portal_phase]; exact (gravity_fold_frame _ s).2.2.2.2.2.1

@[simp] theorem gravity_portal_phase_coins (s : GameState) : (gravity_portal_phase s).coins = s.coins := by
  simp only [gravity_portal_phase]; exact (gravity_fold_frame _ s).2.2.2.2.2.2.1

@[simp] theorem gravity_portal_phase_portals (s : GameState) : (gravity_portal_phase s).portals = s.portals := by
  simp only [gravity_portal_phase]; exact (gravity_fold_frame _ s).2.2.2.2.2.2.2.1

@[simp] theorem gravity_portal_phase_jump_pads (s : GameState) : (gravity_portal_phase s).jump_pads = s.jump_pads := by
  simp only [gravity_portal_phase]; exact (gravity_fold_frame _ s).2.2.2.2.2.2.2.2.2.1

theorem jump_pad_step_frame (s : GameState) (p : JumpPad) :
    (jump_pad_step s p).alive = s.alive ∧
    (jump_pad_step s p).gravity_dir = s.gravity_dir ∧
    (jump_pad_step s p).jump_buffer_timer = s.jump_buffer_timer ∧
    (jump_pad_step s p).player = s.player ∧
    (jump_pad_step s p).obstacles = s.obstacles ∧
    (jump_pad_step s p).coins = s.coins ∧
    (jump_pad_step s p).portals = s.portals ∧
    (jump_pad_step s p).gravity_portals = s.gravity_portals ∧
    (jump_pad_step s p).jump_pads = s.jump_pads ∧
    (jump_pad_step s p).score = s.score ∧
    (jump_pad_step s p).scroll_speed = s.scroll_speed := by
  simp only [jump_pad_step]; (repeat' split) <;> exact ⟨rfl, rfl, rfl, rfl, rfl, rfl, rfl, rfl, rfl, rfl, rfl⟩

theorem pad_fold_frame (l : List JumpPad) :
    ∀ s : GameState,
      (l.foldl jump_pad_step s).alive = s.alive ∧
      (l.foldl jump_pad_step s).gravity_dir = s.gravity_dir ∧
      (l.foldl jump_pad_step s).jump_buffer_timer = s.jump_buffer_timer ∧
      (l.foldl jump_pad_step s).player = s.player ∧
      (l.foldl jump_pad_step s).obstacles = s.obstacles ∧
      (l.foldl jump_pad_step s).coins = s.coins ∧
      (l.foldl jump_pad_step s).portals = s.portals ∧
      (l.foldl jump_pad_step s).gravity_portals = s.gravity_portals ∧
      (l.foldl jump_pad_step s).jump_pads = s.jump_pads ∧
      (l.foldl jump_pad_step s).score = s.score ∧
      (l.foldl jump_pad_step s).scroll_speed = s.scroll_speed := by
  induction l with
  | nil => intro s; exact ⟨rfl, rfl, rfl, rfl, rfl, rfl, rfl, rfl, rfl, rfl, rfl⟩
  | cons p t ih =>
    intro s
    have h1 := jump_pad_step_frame s p
    have h2 := ih (jump_pad_step s p)
    simp only [List.foldl_cons]
    constructor
    · exact h2.1.trans h1.1
    constructor
    · exact h2.2.1.trans h1.2.1
    constructor
    · exact h2.2.2.1.trans h1.2.2.1
    constructor
    · exact h2.2.2.2.1.trans h1.2.2.2.1
    constructor
    · exact h2.2.2.2.2.1.trans h1.2.2.2.2.1
    constructor
    · exact h2.2.2.2.2.2.1.trans h1.2.2.2.2.2.1
    constructor
    · exact h2.2.2.2.2.2.2.1.trans h1.2.2.2.2.2.2.1
    constructor
    · exact h2.2.2.2.2.2.2.2.1.trans h1.2.2.2.2.2.2.2.1
    constructor
    · exact h2.2.2.2.2.2.2.2.2.1.trans h1.2.2.2.2.2.2.2.2.1
    constructor
    · exact h2.2.2.2.2.2.2.2.2.2.1.trans h1.2.2.2.2.2.2.2.2.2.1
    · exact h2.2.2.2.2.2.2.2.2.2.2.trans h1.2.2.2.2.2.2.2.2.2.2

/-- Every jump-pad loop iteration clears the grounded flag, so the fold keeps
it cleared. -/
theorem pad_fold_on_ground_false (l : List JumpPad) :
    ∀ s : GameState, s.on_ground = false → (l.foldl jump_pad_step s).on_ground = false := by
  induction l with
  | nil => intro s h; exact h
  | cons p t ih =>
    intro s _
    simp only [List.foldl_cons]
    exact ih (jump_pad_step s p) rfl

/-- Every jump-pad loop iteration zeroes the coyote timer, so the fold keeps
it at zero. -/
theorem pad_fold_coyote_zero (l : List JumpPad) :
    ∀ s : GameState, s.coyote_timer = 0 → (l.foldl jump_pad_step s).coyote_timer = 0 := by
  induction l with
  | nil => intro s h; exact h
  | cons p t ih =>
    intro s _
    simp only [List.foldl_cons]
    exact ih (jump_pad_step s p) rfl

@[simp] theorem jump_pad_phase_alive (s : GameState) : (jump_pad_phase s).alive = s.alive := by
  simp only [jump_pad_phase]; exact (pad_fold_frame _ s).1

@[simp] theorem jump_pad_phase_gravity_dir (s : GameState) : (jump_pad_phase s).gravity_dir = s.gravity_dir := by
  simp only [jump_pad_phase]; exact (pad_fold_frame _ s).2.1

@[simp] theorem jump_pad_phase_buffer (s : GameState) : (jump_pad_phase s).jump_buffer_timer = s.jump_buffer_timer := by
  simp only [jump_pad_phase]; exact (pad_fold_frame _ s).2.2.1

@[simp] theorem jump_pad_phase_player (s : GameState) : (jump_pad_phase s).player = s.player := by
  simp only [jump_pad_phase]; exact (pad_fold_frame _ s).2.2.2.1

@[simp] theorem jump_pad_phase_obstacles (s : GameState) : (jump_pad_phase s).obstacles = s.obstacles := by
  simp only [jump_pad_phase]; exact (pad_fold_frame _ s).2.2.2.2.1

@[simp] theorem jump_pad_phase_coins (s : GameState) : (jump_pad_phase s).coins = s.coins := by
  simp only [jump_pad_phase]; exact (pad_fold_frame _ s).2.2.2.2.2.1

@[simp] theorem jump_pad_phase_portals (s : GameState) : (jump_pad_phase s).portals = s.portals := by
  simp only [jump_pad_phase]; exact (pad_fold_frame _ s).2.2.2.2.2.2.1

@[simp] theorem jump_pad_phase_gravity_portals (s : GameState) : (jump_pad_phase s).gravity_portals = s.gravity_portals := by
  simp only [jump_pad_phase]; exact (pad_fold_frame _ s).2.2.2.2.2.2.2.1

theorem jump_pad_phase_on_ground_false (s : GameState) (h : s.on_ground = false) :
    (jump_pad_phase s).on_ground = false := by
  simp only [jump_pad_phase]; exact pad_fold_on_ground_false _ s h

theorem jump_pad_phase_coyote_zero (s : GameState) (h : s.coyote_timer = 0) :
    (jump_pad_phase s).coyote_timer = 0 := by
  simp only [jump_pad_phase]; exact pad_fold_coyote_zero _ s h

/-! Frame lemmas for death, particle and shake phases. -/

@[simp] theorem death_phase_gravity_dir (rng : Draws) (s : GameState) : (death_phase rng s).gravity_dir = s.gravity_dir := by
  unfold death_phase emit_death_burst; (repeat' split) <;> rfl

@[simp] theorem death_phase_on_ground (rng : Draws) (s : GameState) : (death_phase rng s).on_ground = s.on_ground := by
  unfold death_phase emit_death_burst; (repeat' split) <;> rfl

@[simp] theorem death_phase_coyote (rng : Draws) (s : GameState) : (death_phase rng s).coyote_timer = s.coyote_timer := by
  unfold death_phase emit_death_burst; (repeat' split) <;> rfl

@[simp] theorem death_phase_buffer (rng : Draws) (s : GameState) : (death_phase rng s).jump_buffer_timer = s.jump_buffer_timer := by
  unfold death_phase emit_death_burst; (repeat' split) <;> rfl

@[simp] theorem death_phase_vel_y (rng : Draws) (s : GameState) : (death_phase rng s).vel_y = s.vel_y := by
  unfold death_phase emit_death_burst; (repeat' split) <;> rfl

@[simp] theorem death_phase_obstacles (rng : Draws) (s : GameState) : (death_phase rng s).obstacles = s.obstacles := by
  unfold death_phase emit_death_burst; (repeat' split) <;> rfl

@[simp] theorem death_phase_coins (rng : Draws) (s : GameState) : (death_phase rng s).coins = s.coins := by
  unfold death_phase emit_death_burst; (repeat' split) <;> rfl

@[simp] theorem death_phase_portals (rng : Draws) (s : GameState) : (death_phase rng s).portals = s.portals := by
  unfold death_phase emit_death_burst; (repeat' split) <;> rfl

@[simp] theorem death_phase_gravity_portals (rng : Draws) (s : GameState) : (death_phase rng s).gravity_portals = s.gravity_portals := by
  unfold death_phase emit_death_burst; (repeat' split) <;> rfl

@[simp] theorem death_phase_jump_pads (rng : Draws) (s : GameState) : (death_phase rng s).jump_pads = s.jump_pads := by
  unfold death_phase emit_death_burst; (repeat' split) <;> rfl

@[simp] theorem update_particles_phase_alive (dt : ℚ) (s : GameState) : (update_particles_phase dt s).alive = s.alive := rfl

@[simp] theorem update_particles_phase_gravity_dir (dt : ℚ) (s : GameState) : (update_particles_phase dt s).gravity_dir = s.gravity_dir := rfl

@[simp] theorem update_particles_phase_on_ground (dt : ℚ) (s : GameState) : (update_particles_phase dt s).on_ground = s.on_ground := rfl

@[simp] theorem update_particles_phase_coyote (dt : ℚ) (s : GameState) : (update_particles_phase dt s).coyote_timer = s.coyote_timer := rfl

@[simp] theorem update_particles_phase_buffer (dt : ℚ) (s : GameState) : (update_particles_phase dt s).jump_buffer_timer = s.jump_buffer_timer := rfl

@[simp] theorem update_particles_phase_vel_y (dt : ℚ) (s : GameState) : (update_particles_phase dt s).vel_y = s.vel_y := rfl

@[simp] theorem update_particles_phase_player (dt : ℚ) (s : GameState) : (update_particles_phase dt s).player = s.player := rfl

@[simp] theorem update_particles_phase_obstacles (dt : ℚ) (s : GameState) : (update_particles_phase dt s).obstacles = s.obstacles := rfl

@[simp] theorem update_particles_phase_coins (dt : ℚ) (s : GameState) : (update_particles_phase dt s).coins = s.coins := rfl

@[simp] theorem update_particles_phase_portals (dt : ℚ) (s : GameState) : (update_particles_phase dt s).portals = s.portals := rfl

@[simp] theorem update_particles_phase_gravity_portals (dt : ℚ) (s : GameState) : (update_particles_phase dt s).gravity_portals = s.gravity_portals := rfl

@[simp] theorem update_particles_phase_jump_pads (dt : ℚ) (s : GameState) : (update_particles_phase dt s).jump_pads = s.jump_pads := rfl

@[simp] theorem update_particles_phase_score (dt : ℚ) (s : GameState) : (update_particles_phase dt s).score = s.score := rfl

@[simp] theorem update_particles_phase_scroll_speed (dt : ℚ) (s : GameState) : (update_particles_phase dt s).scroll_speed = s.scroll_speed := rfl

@[simp] theorem update_particles_phase_time_alive (dt : ℚ) (s : GameState) : (update_particles_phase dt s).time_alive = s.time_alive := rfl

@[simp] theorem update_particles_phase_shake_time (dt : ℚ) (s : GameState) : (update_particles_phase dt s).shake_time = s.shake_time := rfl

@[simp] theorem update_particles_phase_shake_intensity (dt : ℚ) (s : GameState) : (update_particles_phase dt s).shake_intensity = s.shake_intensity := rfl

@[simp] theorem update_shake_phase_alive (dt : ℚ) (s : GameState) : (update_shake_phase dt s).alive = s.alive := by
  unfold update_shake_phase; split <;> rfl

@[simp] theorem update_shake_phase_gravity_dir (dt : ℚ) (s : GameState) : (update_shake_phase dt s).gravity_dir = s.gravity_dir := by
  unfold update_shake_phase; split <;> rfl

@[simp] theorem update_shake_phase_on_ground (dt : ℚ) (s : GameState) : (update_shake_phase dt s).on_ground = s.on_ground := by
  unfold update_shake_phase; split <;> rfl

@[simp] theorem update_shake_phase_coyote (dt : ℚ) (s : GameState) : (update_shake_phase dt s).coyote_timer = s.coyote_timer := by
  unfold update_shake_phase; split <;> rfl

@[simp] theorem update_shake_phase_buffer (dt : ℚ) (s : GameState) : (update_shake_phase dt s).jump_buffer_timer = s.jump_buffer_timer := by
  unfold update_shake_phase; split <;> rfl

@[simp] theorem update_shake_phase_vel_y (dt : ℚ) (s : GameState) : (update_shake_phase dt s).vel_y = s.vel_y := by
  unfold update_shake_phase; split <;> rfl

@[simp] theorem update_shake_phase_player (dt : ℚ) (s : GameState) : (update_shake_phase dt s).player = s.player := by
  unfold update_shake_phase; split <;> rfl

@[simp] theorem update_shake_phase_obstacles (dt : ℚ) (s : GameState) : (update_shake_phase dt s).obstacles = s.obstacles := by
  unfold update_shake_phase; split <;> rfl

@[simp] theorem update_shake_phase_coins (dt : ℚ) (s : GameState) : (update_shake_phase dt s).coins = s.coins := by
  unfold update_shake_phase; split <;> rfl

@[simp] theorem update_shake_phase_portals (dt : ℚ) (s : GameState) : (update_shake_phase dt s).portals = s.portals := by
  unfold update_shake_phase; split <;> rfl

@[simp] theorem update_shake_phase_gravity_portals (dt : ℚ) (s : GameState) : (update_shake_phase dt s).gravity_portals = s.gravity_portals := by
  unfold update_shake_phase; split <;> rfl

@[simp] theorem update_shake_phase_jump_pads (dt : ℚ) (s : GameState) : (update_shake_phase dt s).jump_pads = s.jump_pads := by
  unfold update_shake_phase; split <;> rfl

@[simp] theorem update_shake_phase_score (dt : ℚ) (s : GameState) : (update_shake_phase dt s).score = s.score := by
  unfold update_shake_phase; split <;> rfl

@[simp] theorem update_shake_phase_scroll_speed (dt : ℚ) (s : GameState) : (update_shake_phase dt s).scroll_speed = s.scroll_speed := by
  unfold update_shake_phase; split <;> rfl

@[simp] theorem update_shake_phase_time_alive (dt : ℚ) (s : GameState) : (update_shake_phase dt s).time_alive = s.time_alive := by
  unfold update_shake_phase; split <;> rfl

@[simp] theorem update_shake_phase_death_particles (dt : ℚ) (s : GameState) : (update_shake_phase dt s).death_particles = s.death_particles := by
  unfold update_shake_phase; split <;> rfl

@[simp] theorem update_shake_phase_shake_intensity (dt : ℚ) (s : GameState) : (update_shake_phase dt s).shake_intensity = s.shake_intensity := by
  unfold update_shake_phase; split <;> rfl

/-! Composite frame lemmas along the tick. -/

theorem mid_resolve_frame (dt : ℚ) (s : GameState) :
    (mid_resolve dt s).alive = s.alive ∧
    (mid_resolve dt s).gravity_dir = s.gravity_dir ∧
    (mid_resolve dt s).coyote_timer = s.coyote_timer ∧
    (mid_resolve dt s).jump_buffer_timer = s.jump_buffer_timer := by
  unfold mid_resolve pre_resolve
  simp

@[simp] theorem mid_buffer_alive (dt : ℚ) (s : GameState) : (mid_buffer dt s).alive = s.alive := by
  unfold mid_buffer mid_resolve pre_resolve; simp

@[simp] theorem mid_buffer_gravity_dir (dt : ℚ) (s : GameState) : (mid_buffer dt s).gravity_dir = s.gravity_dir := by
  unfold mid_buffer mid_resolve pre_resolve; simp

@[simp] theorem mid_buffer_obstacles (dt : ℚ) (s : GameState) : (mid_buffer dt s).obstacles = (pre_resolve dt s).obstacles := by
  unfold mid_buffer mid_resolve; simp

@[simp] theorem mid_buffer_coins (dt : ℚ) (s : GameState) : (mid_buffer dt s).coins = (pre_resolve dt s).coins := by
  unfold mid_buffer mid_resolve; simp

@[simp] theorem mid_buffer_portals (dt : ℚ) (s : GameState) : (mid_buffer dt s).portals = (pre_resolve dt s).portals := by
  unfold mid_buffer mid_resolve; simp

@[simp] theorem mid_buffer_gravity_portals (dt : ℚ) (s : GameState) : (mid_buffer dt s).gravity_portals = (pre_resolve dt s).gravity_portals := by
  unfold mid_buffer mid_resolve; simp

@[simp] theorem mid_buffer_jump_pads (dt : ℚ) (s : GameState) : (mid_buffer dt s).jump_pads = (pre_resolve dt s).jump_pads := by
  unfold mid_buffer mid_resolve; simp

@[simp] theorem pre_death_alive (rng : Draws) (dt : ℚ) (s : GameState) : (pre_death rng dt s).alive = s.alive := by
  unfold pre_death; simp

/-- The prune step stores exactly the filter of each list. -/
theorem pre_resolve_obstacles (dt : ℚ) (s : GameState) :
    (pre_resolve dt s).obstacles
      = ((recycle_phase (extend_phase (scroll_phase dt (bg_phase dt (time_phase dt s))))).obstacles).filter
          (fun sp => !(decide (sp.right < -200))) := rfl

theorem pre_resolve_coins (dt : ℚ) (s : GameState) :
    (pre_resolve dt s).coins
      = ((recycle_phase (extend_phase (scroll_phase dt (bg_phase dt (time_phase dt s))))).coins).filter
          (fun sp => !(decide (sp.right < -200))) := rfl

theorem pre_resolve_portals (dt : ℚ) (s : GameState) :
    (pre_resolve dt s).portals
      = ((recycle_phase (extend_phase (scroll_phase dt (bg_phase dt (time_phase dt s))))).portals).filter
          (fun p => !(decide (p.sprite.right < -200))) := rfl

theorem pre_resolve_gravity_portals (dt : ℚ) (s : GameState) :
    (pre_resolve dt s).gravity_portals
      = ((recycle_phase (extend_phase (scroll_phase dt (bg_phase dt (time_phase dt s))))).gravity_portals).filter
          (fun p => !(decide (p.sprite.right < -200))) := rfl

theorem pre_resolve_jump_pads (dt : ℚ) (s : GameState) :
    (pre_resolve dt s).jump_pads
      = ((recycle_phase (extend_phase (scroll_phase dt (bg_phase dt (time_phase dt s))))).jump_pads).filter
          (fun p => !(decide (p.sprite.right < -200))) := rfl

@[simp] theorem coin_phase_coins (rng : Draws) (s : GameState) :
    (coin_phase rng s).coins = s.coins.filter (fun c => !(collides s.player c)) := rfl

@[simp] theorem speed_portal_phase_portals (s : GameState) :
    (speed_portal_phase s).portals = s.portals.filter (fun p => !(collides s.player p.sprite)) := rfl

@[simp] theorem gravity_portal_phase_gravity_portals (s : GameState) :
    (gravity_portal_phase s).gravity_portals
      = s.gravity_portals.filter (fun g => !(collides s.player g.sprite)) := rfl

@[simp] theorem jump_pad_phase_jump_pads (s : GameState) :
    (jump_pad_phase s).jump_pads
      = s.jump_pads.filter (fun p => !(collides s.player p.sprite)) := rfl

/-! Rewriting on_update by the alive flag. -/

theorem on_update_alive_eq (rng : Draws) (dt : ℚ) (s : GameState) (ha : s.alive = true) :
    on_update rng dt s
      = update_shake_phase dt (update_particles_phase dt (death_phase rng (pre_death rng dt s))) := by
  unfold on_update; rw [if_pos ha]

theorem on_update_dead_eq (rng : Draws) (dt : ℚ) (s : GameState) (ha : s.alive = false) :
    on_update rng dt s = update_shake_phase dt (update_particles_phase dt s) := by
  unfold on_update; rw [if_neg]; simp [ha]

/-! The jump-buffer bookkeeping of a single tick. -/

theorem coyote_buffer_airborne (dt : ℚ) (u : GameState) (hdt : 0 ≤ dt)
    (hg : u.on_ground = false) (hc : u.coyote_timer = 0) (hb : 0 < u.jump_buffer_timer) :
    coyote_buffer_phase dt u
      = { u with coyote_timer := 0, jump_buffer_timer := u.jump_buffer_timer - dt } := by
  have hmax : max (0 : ℚ) (u.coyote_timer - dt) = 0 := by
    rw [hc, zero_sub]
    exact max_eq_left (neg_nonpos.mpr hdt)
  unfold coyote_buffer_phase
  simp only [hg, Bool.false_eq_true, if_false, hmax, hb, if_true, lt_irrefl, or_false, if_pos hb]

theorem coyote_buffer_landing (dt : ℚ) (u : GameState)
    (hg : u.on_ground = true) (hb : 0 < u.jump_buffer_timer) :
    coyote_buffer_phase dt u
      = { u with vel_y := JUMP_VEL * (u.gravity_dir : ℚ), on_ground := false,
                 coyote_timer := 0, jump_buffer_timer := 0 } := by
  unfold coyote_buffer_phase do_jump
  simp only [hg, if_true, hb, true_or]

theorem airborne_tick (rng : Draws) (dt : ℚ) (s : GameState)
    (ha : s.alive = true) (hc : s.coyote_timer = 0) (hb : 0 < s.jump_buffer_timer)
    (hdt : 0 ≤ dt) (hres : (mid_resolve dt s).on_ground = false) :
    (on_update rng dt s).on_ground = false ∧
    (on_update rng dt s).coyote_timer = 0 ∧
    (on_update rng dt s).jump_buffer_timer = s.jump_buffer_timer - dt := by
  have hmrf := mid_resolve_frame dt s
  have hmb : mid_buffer dt s = { mid_resolve dt s with coyote_timer := 0, jump_buffer_timer := ((mid_resolve dt s).jump_buffer_timer - dt) } := by
    unfold mid_buffer
    exact coyote_buffer_airborne dt (mid_resolve dt s) hdt hres
      (hmrf.2.2.1.trans hc) (by rw [hmrf.2.2.2]; exact hb)
  rw [on_update_alive_eq rng dt s ha]
  unfold pre_death
  refine ⟨?_, ?_, ?_⟩
  · simp only [update_shake_phase_on_ground, update_particles_phase_on_ground, death_phase_on_ground]
    apply jump_pad_phase_on_ground_false
    simp [hmb, hres]
  · simp only [update_shake_phase_coyote, update_particles_phase_coyote, death_phase_coyote]
    apply jump_pad_phase_coyote_zero
    simp [hmb]
  · simp [hmb, hmrf.2.2.2]

theorem landing_effects (dt : ℚ) (s : GameState)
    (hb : 0 < s.jump_buffer_timer) (hres : (mid_resolve dt s).on_ground = true) :
    (mid_buffer dt s).vel_y = JUMP_VEL * ((s.gravity_dir : ℤ) : ℚ) ∧
    (mid_buffer dt s).on_ground = false ∧
    (mid_buffer dt s).coyote_timer = 0 ∧
    (mid_buffer dt s).jump_buffer_timer = 0 := by
  have hmrf := mid_resolve_frame dt s
  have h := coyote_buffer_landing dt (mid_resolve dt s) hres (by rw [hmrf.2.2.2]; exact hb)
  unfold mid_buffer
  rw [h]
  refine ⟨?_, rfl, rfl, rfl⟩
  simp [hmrf.2.1]

@[simp] theorem run_ticks_nil (rngs : ℕ → Draws) (i : ℕ) (s : GameState) :
    run_ticks rngs [] i s = s := rfl

theorem run_ticks_cons (rngs : ℕ → Draws) (dt : ℚ) (rest : List ℚ) (i : ℕ) (s : GameState) :
    run_ticks rngs (dt :: rest) i s = run_ticks rngs rest (i + 1) (on_update (rngs i) dt s) := rfl

/-- An airborne stretch of ticks keeps the player un-grounded with a zero
coyote timer and decrements the jump buffer by the elapsed time. -/
theorem run_airborne (rngs : ℕ → Draws) :
    ∀ (dts : List ℚ) (i0 : ℕ) (s : GameState),
      s.alive = true → s.on_ground = false → s.coyote_timer = 0 →
      dts.sum < s.jump_buffer_timer →
      (∀ d ∈ dts, 0 < d) →
      (∀ i, i < dts.length →
        (mid_resolve (dts.getD i 0) (run_ticks rngs (dts.take i) i0 s)).on_ground = false ∧
        (run_ticks rngs (dts.take (i + 1)) i0 s).alive = true) →
      (run_ticks rngs dts i0 s).alive = true ∧
      (run_ticks rngs dts i0 s).on_ground = false ∧
      (run_ticks rngs dts i0 s).coyote_timer = 0 ∧
      (run_ticks rngs dts i0 s).jump_buffer_timer = s.jump_buffer_timer - dts.sum := by
  intro dts
  induction dts with
  | nil =>
    intro i0 s ha hg hc _ _ _
    exact ⟨ha, hg, hc, by simp⟩
  | cons dt rest ih =>
    intro i0 s ha hg hc hsum hpos hmid
    have hdtpos : 0 < dt := hpos dt (List.mem_cons_self _ _)
    have hrest_nonneg : 0 ≤ rest.sum :=
      List.sum_nonneg (fun x hx => le_of_lt (hpos x (List.mem_cons_of_mem _ hx)))
    have hsum' : dt + rest.sum < s.jump_buffer_timer := by simpa [List.sum_cons] using hsum
    have hb : 0 < s.jump_buffer_timer := by linarith
    obtain ⟨hres0, halive1⟩ := hmid 0 (Nat.succ_pos _)
    simp only [List.getD_cons_zero, List.take_zero, run_ticks_nil] at hres0
    simp only [List.take_succ_cons, List.take_zero, run_ticks_cons, run_ticks_nil] at halive1
    have hat := airborne_tick (rngs i0) dt s ha hc hb (le_of_lt hdtpos) hres0
    have ih' := ih (i0 + 1) (on_update (rngs i0) dt s) halive1 hat.1 hat.2.1
      (by rw [hat.2.2]; linarith)
      (fun x hx => hpos x (List.mem_cons_of_mem _ hx))
      (fun i hi => by
        have h := hmid (i + 1) (Nat.succ_lt_succ hi)
        simpa [List.getD_cons_succ, List.take_succ_cons, run_ticks_cons] using h)
    rw [run_ticks_cons]
    refine ⟨ih'.1, ih'.2.1, ih'.2.2.1, ?_⟩
    rw [ih'.2.2.2, hat.2.2, List.sum_cons]
    ring

/-! Death-phase bookkeeping. -/

theorem death_phase_alive_eq (rng : Draws) (u : GameState) :
    (death_phase rng u).alive = if death_check u then false else u.alive := by
  unfold death_phase emit_death_burst
  split <;> rfl

theorem death_phase_burst (rng : Draws) (u : GameState) (h : death_check u = true) :
    (death_phase rng u).death_particles.length = u.death_particles.length + 40 ∧
    (death_phase rng u).shake_time = 0.35 ∧
    (death_phase rng u).shake_intensity = 6 ∧
    (death_phase rng u).alive = false := by
  unfold death_phase emit_death_burst
  rw [if_pos h]
  refine ⟨?_, rfl, rfl, rfl⟩
  simp

/-! Gravity direction stays in {+1, -1}. -/

theorem gravity_portal_step_pm1 (s : GameState) (g : GravityPortal)
    (h : s.gravity_dir = 1 ∨ s.gravity_dir = -1) :
    (gravity_portal_step s g).gravity_dir = 1 ∨ (gravity_portal_step s g).gravity_dir = -1 := by
  simp only [gravity_portal_step]
  split
  · rename_i hc1
    split
    · simpa using hc1
    · exact h
  · split
    · rcases h with h | h <;> simp [h]
    · exact h

theorem gravity_fold_pm1 (l : List GravityPortal) :
    ∀ s : GameState, s.gravity_dir = 1 ∨ s.gravity_dir = -1 →
      (l.foldl gravity_portal_step s).gravity_dir = 1 ∨
      (l.foldl gravity_portal_step s).gravity_dir = -1 := by
  induction l with
  | nil => intro s h; exact h
  | cons g t ih =>
    intro s h
    simp only [List.foldl_cons]
    exact ih (gravity_portal_step s g) (gravity_portal_step_pm1 s g h)

/-! The claims. -/

/-- C1: on every tick while alive with gravity direction +1, if after the
integration step the player overlaps at least one ground collider and the
pre-resolution vertical velocity is at most zero, then ground resolution
zeroes the vertical velocity, sets the grounded flag, and places the player's
bottom edge exactly on the maximum top edge among the colliding ground
sprites (no penetration, no gap). -/
theorem claim_C1_landing_invariant (s : GameState)
    (hg : 0 < s.gravity_dir)
    (hne : s.ground_collision.filter (fun h => collides s.player h) ≠ [])
    (hv : s.vel_y ≤ 0) :
    (resolve_phase s).vel_y = 0 ∧
    (resolve_phase s).on_ground = true ∧
    (resolve_phase s).player.bottom
      = max_tops (s.ground_collision.filter (fun h => collides s.player h)) := by
  simp only [resolve_phase]
  rw [if_pos hg, if_pos (And.intro hne hv)]
  refine ⟨rfl, rfl, ?_⟩
  simp [Sprite.bottom]

theorem claim_C1_witness :
    (0 : ℤ) < c1_state.gravity_dir ∧
    c1_state.ground_collision.filter (fun h => collides c1_state.player h) ≠ [] ∧
    c1_state.vel_y ≤ 0 ∧
    (resolve_phase c1_state).vel_y = 0 ∧
    (resolve_phase c1_state).on_ground = true := by
  have h1 : (0 : ℤ) < c1_state.gravity_dir := by norm_num [c1_state, base_state]
  have h2 : c1_state.ground_collision.filter (fun h => collides c1_state.player h) ≠ [] := by
    norm_num [c1_state, base_state, collides, Sprite.left, Sprite.right, Sprite.top,
      Sprite.bottom, List.filter]
  have h3 : c1_state.vel_y ≤ 0 := by norm_num [c1_state, base_state]
  have h := claim_C1_landing_invariant c1_state h1 h2 h3
  exact ⟨h1, h2, h3, h.1, h.2.1⟩

/-- C9: while the alive flag is false, a jump request is a no-op: the state is
returned unchanged, in particular the jump-buffer timer is not armed, so no
jump carries over into a restarted run. -/
theorem claim_C9_dead_jump_noop (s : GameState) (h : s.alive = false) :
    queue_jump s = s := by
  simp [queue_jump, h]

theorem claim_C9_witness : c9_state.alive = false ∧ queue_jump c9_state = c9_state :=
  ⟨rfl, claim_C9_dead_jump_noop c9_state rfl⟩

/-- C3: a jump pad overlapped by the player sets the vertical velocity to
JUMP_VEL * gravity_dir * strength only when that target is a stronger impulse
than the current velocity in the direction of travel, leaves it unchanged
otherwise; it clears the grounded flag and the coyote timer unconditionally;
every hit pad is removed; and setup stores the level strength defaulted to 1.0
and floor-clamped at 0.2. -/
theorem claim_C3_jump_pad (s : GameState) (p : JumpPad) (tex : Textures) (d : LevelData) :
    ((jump_pad_step s p).vel_y =
      if (0 < s.gravity_dir ∧ s.vel_y < JUMP_VEL * (s.gravity_dir : ℚ) * p.strength.getD 1)
          ∨ (s.gravity_dir < 0 ∧ JUMP_VEL * (s.gravity_dir : ℚ) * p.strength.getD 1 < s.vel_y)
        then JUMP_VEL * (s.gravity_dir : ℚ) * p.strength.getD 1 else s.vel_y) ∧
    (jump_pad_step s p).on_ground = false ∧
    (jump_pad_step s p).coyote_timer = 0 ∧
    ((jump_pad_phase s).jump_pads = s.jump_pads.filter (fun q => !(collides s.player q.sprite))) ∧
    (∀ q ∈ (setup tex d).jump_pads, ∃ e ∈ d.jump_pads,
        q.strength = some (max 0.2 (e.strength.getD 1))) := by
  refine ⟨?_, rfl, rfl, rfl, ?_⟩
  · simp only [jump_pad_step]
    split <;> rfl
  · intro q hq
    simp only [setup] at hq
    rw [List.mem_map] at hq
    obtain ⟨e, he, rfl⟩ := hq
    exact ⟨e, he, rfl⟩

theorem claim_C3_witness :
    (jump_pad_step base_state c3_pad).vel_y = 1640 ∧
    (jump_pad_step base_state c3_pad).on_ground = false ∧
    (jump_pad_step base_state c3_pad).coyote_timer = 0 := by
  have h := claim_C3_jump_pad base_state c3_pad tex0 levelC2
  refine ⟨?_, h.2.1, h.2.2.1⟩
  rw [h.1]
  norm_num [base_state, c3_pad, JUMP_VEL]

/-- C10: gravity direction is exactly +1 or -1 after setup and after every
tick: setup starts at +1 and normalizes every portal's carried direction to
+1 when the level value is nonnegative and -1 otherwise, and the trigger
handler keeps the direction in {+1, -1} for arbitrary stored portal
directions because any other value is replaced by the flip of the current
direction. -/
theorem claim_C10_gravity_invariant (tex : Textures) (d : LevelData)
    (rng : Draws) (dt : ℚ) (s : GameState) :
    (setup tex d).gravity_dir = 1 ∧
    ((setup tex d).gravity_portals.map GravityPortal.dir
      = d.gravity_portals.map (fun e => some (if (0 : ℤ) ≤ e.dir.getD (-1) then 1 else -1))) ∧
    (s.gravity_dir = 1 ∨ s.gravity_dir = -1 →
      (on_update rng dt s).gravity_dir = 1 ∨ (on_update rng dt s).gravity_dir = -1) := by
  refine ⟨rfl, ?_, ?_⟩
  · simp [setup, List.map_map]
  · intro h
    by_cases ha : s.alive = true
    · rw [on_update_alive_eq rng dt s ha]
      simp only [update_shake_phase_gravity_dir, update_particles_phase_gravity_dir,
        death_phase_gravity_dir]
      unfold pre_death
      simp only [jump_pad_phase_gravity_dir]
      have hu : (speed_portal_phase (coin_phase rng (dust_anim_phase rng dt (mid_buffer dt s)))).gravity_dir = s.gravity_dir := by simp
      simp only [gravity_portal_phase]
      exact gravity_fold_pm1 _ _ (by rw [hu]; exact h)
    · have ha' : s.alive = false := by revert ha; cases s.alive <;> simp
      rw [on_update_dead_eq rng dt s ha']
      simpa using h

theorem claim_C10_witness :
    (base_state.gravity_dir = 1 ∨ base_state.gravity_dir = -1) ∧
    ((on_update rng0 0 base_state).gravity_dir = 1 ∨ (on_update rng0 0 base_state).gravity_dir = -1) :=
  ⟨Or.inl rfl, (claim_C10_gravity_invariant tex0 levelC2 rng0 0 base_state).2.2 (Or.inl rfl)⟩

/-- C2 (amended): a gravity portal whose stored direction (always +1 or -1
after setup) differs from the current gravity direction flips the direction
and zeroes the vertical velocity, otherwise leaves both unchanged; every hit
portal is removed; and a placement whose level entry omits the direction is
normalized to -1 at setup time (not to the flip of the direction current at
trigger time). -/
theorem claim_C2_gravity_portal (s : GameState) (g : GravityPortal) (dval : ℤ)
    (tex : Textures) (d : LevelData)
    (hs : s.gravity_dir = 1 ∨ s.gravity_dir = -1)
    (hd : g.dir = some dval) (hdv : dval = 1 ∨ dval = -1) :
    (dval ≠ s.gravity_dir →
      gravity_portal_step s g = { s with gravity_dir := -s.gravity_dir, vel_y := 0 }) ∧
    (dval = s.gravity_dir → gravity_portal_step s g = s) ∧
    ((gravity_portal_phase s).gravity_portals
      = s.gravity_portals.filter (fun q => !(collides s.player q.sprite))) ∧
    ((setup tex d).gravity_portals.map GravityPortal.dir
      = d.gravity_portals.map (fun e => some (if (0 : ℤ) ≤ e.dir.getD (-1) then 1 else -1))) := by
  refine ⟨?_, ?_, rfl, by simp [setup, List.map_map]⟩
  · intro hne
    have hflip : dval = -s.gravity_dir := by
      rcases hs with h | h <;> rcases hdv with h2 | h2 <;> simp_all
    simp only [gravity_portal_step, hd, Option.getD_some, if_pos hdv, if_pos hne]
    rw [hflip]
  · intro heq
    simp only [gravity_portal_step, hd, Option.getD_some, if_pos hdv]
    rw [if_neg]
    simp [heq]

theorem claim_C2_witness :
    (gravity_portal_step base_state ⟨⟨244, 144, 48, 48⟩, some (-1)⟩
      = { base_state with gravity_dir := -base_state.gravity_dir, vel_y := 0 }) ∧
    (gravity_portal_step base_state ⟨⟨244, 144, 48, 48⟩, some 1⟩ = base_state) := by
  constructor
  · exact (claim_C2_gravity_portal base_state ⟨⟨244, 144, 48, 48⟩, some (-1)⟩ (-1) tex0 levelC2
      (Or.inl rfl) rfl (Or.inr rfl)).1 (by norm_num [base_state])
  · exact (claim_C2_gravity_portal base_state ⟨⟨244, 144, 48, 48⟩, some 1⟩ 1 tex0 levelC2
      (Or.inl rfl) rfl (Or.inl rfl)).2.1 (by norm_num [base_state])

/-- C2 counterexample: the claim's default clause fails on the code.  Take a
level with two gravity portals at the player position, the first carrying
direction -1 and the second omitting the direction.  On the first tick both
portals trigger in order, so the second triggers while the player's gravity
direction is -1.  The claimed flip-at-trigger default (spec_trigger_dirs with
the same hit list) would end with direction +1, but the code, which defaulted
the omitted direction to -1 when the level was parsed, ends with -1. -/
theorem claim_C2_counterexample :
    (on_update rng0 0 (setup tex0 levelC2)).gravity_dir = -1 ∧
    spec_trigger_dirs 1 [some (-1), none] = 1 ∧
    ((-1 : ℤ) ≠ 1) := by
  refine ⟨?_, by norm_num [spec_trigger_dirs], by norm_num⟩
  norm_num [on_update, pre_death, mid_buffer, mid_resolve, pre_resolve, time_phase, bg_phase,
    scroll_phase, extend_phase, recycle_phase, prune_phase, integrate_phase, resolve_phase,
    coyote_buffer_phase, dust_anim_phase, emit_dust, coin_phase, speed_portal_phase,
    gravity_portal_phase, gravity_portal_step, jump_pad_phase, death_phase, death_check,
    update_particles_phase, update_shake_phase, setup, build_obstacles, build_ground_tiles,
    obstacle_plan, spikes_for, collides, Sprite.left, Sprite.right, Sprite.top, Sprite.bottom,
    max_tops, GRAVITY, WIDTH, HEIGHT, JUMP_BUFFER, COYOTE_TIME, DEFAULT_SCROLL_SPEED, FLOOR_Y,
    PLAYER_X, PLAYER_SIZE, SPAWN_START, OB_H, COIN_SIZE, List.filter, tex0, levelC2, rng0, do_jump]

/-- C5: the ALIVE to DEAD transition fires at most once and only at the death
check: a dead tick equals the particle-and-shake decay alone, stays dead,
never grows the death pool, and leaves physics, entities, score, speed and
gravity untouched; an alive tick ends dead exactly when the death condition
holds at the death step, and in that case the death phase appends exactly 40
burst particles and arms the shake once. -/
theorem claim_C5_death_transition (rng : Draws) (dt : ℚ) (s : GameState) :
    (s.alive = false →
      on_update rng dt s = update_shake_phase dt (update_particles_phase dt s) ∧
      (on_update rng dt s).alive = false ∧
      (on_update rng dt s).death_particles.length ≤ s.death_particles.length ∧
      (on_update rng dt s).shake_intensity = s.shake_intensity ∧
      (on_update rng dt s).player = s.player ∧
      (on_update rng dt s).vel_y = s.vel_y ∧
      (on_update rng dt s).obstacles = s.obstacles ∧
      (on_update rng dt s).coins = s.coins ∧
      (on_update rng dt s).portals = s.portals ∧
      (on_update rng dt s).gravity_portals = s.gravity_portals ∧
      (on_update rng dt s).jump_pads = s.jump_pads ∧
      (on_update rng dt s).score = s.score ∧
      (on_update rng dt s).scroll_speed = s.scroll_speed ∧
      (on_update rng dt s).gravity_dir = s.gravity_dir ∧
      (on_update rng dt s).time_alive = s.time_alive) ∧
    (s.alive = true →
      ((on_update rng dt s).alive = false ↔ death_check (pre_death rng dt s) = true) ∧
      (death_check (pre_death rng dt s) = true →
        (death_phase rng (pre_death rng dt s)).death_particles.length
          = (pre_death rng dt s).death_particles.length + 40 ∧
        (death_phase rng (pre_death rng dt s)).shake_time = 0.35 ∧
        (death_phase rng (pre_death rng dt s)).shake_intensity = 6 ∧
        (death_phase rng (pre_death rng dt s)).alive = false)) := by
  constructor
  · intro ha
    have he := on_update_dead_eq rng dt s ha
    refine ⟨he, ?_, ?_, ?_, ?_, ?_, ?_, ?_, ?_, ?_, ?_, ?_, ?_, ?_, ?_⟩
    · rw [he]; simp [ha]
    · rw [he]
      simp only [update_shake_phase_death_particles]
      calc ((s.death_particles.map (fun p => p.update dt (-300))).filter Particle.is_alive).length
          ≤ (s.death_particles.map (fun p => p.update dt (-300))).length := List.length_filter_le _ _
        _ = s.death_particles.length := List.length_map _ _
    · rw [he]; simp
    · rw [he]; simp
    · rw [he]; simp
    · rw [he]; simp
    · rw [he]; simp
    · rw [he]; simp
    · rw [he]; simp
    · rw [he]; simp
    · rw [he]; simp
    · rw [he]; simp
    · rw [he]; simp
    · rw [he]; simp
  · intro ha
    constructor
    · rw [on_update_alive_eq rng dt s ha]
      simp only [update_shake_phase_alive, update_particles_phase_alive, death_phase_alive_eq]
      have hp : (pre_death rng dt s).alive = true := by simp [ha]
      rw [hp]
      rcases Bool.eq_false_or_eq_true (death_check (pre_death rng dt s)) with h | h <;> simp [h]
    · intro hchk
      exact death_phase_burst rng (pre_death rng dt s) hchk

theorem claim_C5_witness :
    c5_state.alive = false ∧
    (on_update rng0 (1 / 10) c5_state).alive = false ∧
    (on_update rng0 (1 / 10) c5_state).death_particles.length ≤ c5_state.death_particles.length ∧
    (on_update rng0 (1 / 10) c5_state).score = c5_state.score := by
  have h := (claim_C5_death_transition rng0 (1 / 10) c5_state).1 rfl
  exact ⟨rfl, h.2.1, h.2.2.1, h.2.2.2.2.2.2.2.2.2.2.2.1⟩

/-- C7: the prune step removes exactly the obstacles, coins, speed portals,
gravity portals and jump pads whose right edge is less than -200; after any
alive tick no such entity remains in any of those collections, and a dead
tick leaves the collections unchanged, so a pruned entity is absent from
every subsequent tick. -/
theorem claim_C7_prune (rng : Draws) (dt : ℚ) (s : GameState) :
    (∀ e : Sprite, e ∈ (prune_phase s).obstacles ↔ e ∈ s.obstacles ∧ ¬(e.right < -200)) ∧
    (∀ e : Sprite, e ∈ (prune_phase s).coins ↔ e ∈ s.coins ∧ ¬(e.right < -200)) ∧
    (∀ e : SpeedPortal, e ∈ (prune_phase s).portals ↔ e ∈ s.portals ∧ ¬(e.sprite.right < -200)) ∧
    (∀ e : GravityPortal,
      e ∈ (prune_phase s).gravity_portals ↔ e ∈ s.gravity_portals ∧ ¬(e.sprite.right < -200)) ∧
    (∀ e : JumpPad, e ∈ (prune_phase s).jump_pads ↔ e ∈ s.jump_pads ∧ ¬(e.sprite.right < -200)) ∧
    (s.alive = true →
      (∀ e ∈ (on_update rng dt s).obstacles, ¬(e.right < -200)) ∧
      (∀ e ∈ (on_update rng dt s).coins, ¬(e.right < -200)) ∧
      (∀ e ∈ (on_update rng dt s).portals, ¬(e.sprite.right < -200)) ∧
      (∀ e ∈ (on_update rng dt s).gravity_portals, ¬(e.sprite.right < -200)) ∧
      (∀ e ∈ (on_update rng dt s).jump_pads, ¬(e.sprite.right < -200))) ∧
    (s.alive = false →
      (on_update rng dt s).obstacles = s.obstacles ∧
      (on_update rng dt s).coins = s.coins ∧
      (on_update rng dt s).portals = s.portals ∧
      (on_update rng dt s).gravity_portals = s.gravity_portals ∧
      (on_update rng dt s).jump_pads = s.jump_pads) := by
  refine ⟨?_, ?_, ?_, ?_, ?_, ?_, ?_⟩
  · intro e; simp [prune_phase, List.mem_filter]
  · intro e; simp [prune_phase, List.mem_filter]
  · intro e; simp [prune_phase, List.mem_filter]
  · intro e; simp [prune_phase, List.mem_filter]
  · intro e; simp [prune_phase, List.mem_filter]
  · intro ha
    refine ⟨?_, ?_, ?_, ?_, ?_⟩
    · intro e he
      rw [on_update_alive_eq rng dt s ha] at he
      unfold pre_death at he
      simp only [update_shake_phase_obstacles, update_particles_phase_obstacles,
        death_phase_obstacles, jump_pad_phase_obstacles, gravity_portal_phase_obstacles,
        speed_portal_phase_obstacles, coin_phase_obstacles, dust_anim_phase_obstacles,
        mid_buffer_obstacles] at he
      rw [pre_resolve_obstacles] at he
      have h2 := (List.mem_filter.mp he).2
      simpa using h2
    · intro e he
      rw [on_update_alive_eq rng dt s ha] at he
      unfold pre_death at he
      simp only [update_shake_phase_coins, update_particles_phase_coins, death_phase_coins,
        jump_pad_phase_coins, gravity_portal_phase_coins, speed_portal_phase_coins,
        coin_phase_coins] at he
      have h1 := (List.mem_filter.mp he).1
      simp only [dust_anim_phase_coins, mid_buffer_coins] at h1
      rw [pre_resolve_coins] at h1
      have h2 := (List.mem_filter.mp h1).2
      simpa using h2
    · intro e he
      rw [on_update_alive_eq rng dt s ha] at he
      unfold pre_death at he
      simp only [update_shake_phase_portals, update_particles_phase_portals, death_phase_portals,
        jump_pad_phase_portals, gravity_portal_phase_portals, speed_portal_phase_portals] at he
      have h1 := (List.mem_filter.mp he).1
      simp only [coin_phase_portals, dust_anim_phase_portals, mid_buffer_portals] at h1
      rw [pre_resolve_portals] at h1
      have h2 := (List.mem_filter.mp h1).2
      simpa using h2
    · intro e he
      rw [on_update_alive_eq rng dt s ha] at he
      unfold pre_death at he
      simp only [update_shake_phase_gravity_portals, update_particles_phase_gravity_portals,
        death_phase_gravity_portals, jump_pad_phase_gravity_portals,
        gravity_portal_phase_gravity_portals] at he
      have h1 := (List.mem_filter.mp he).1
      simp only [speed_portal_phase_gravity_portals, coin_phase_gravity_portals,
        dust_anim_phase_gravity_portals, mid_buffer_gravity_portals] at h1
      rw [pre_resolve_gravity_portals] at h1
      have h2 := (List.mem_filter.mp h1).2
      simpa using h2
    · intro e he
      rw [on_update_alive_eq rng dt s ha] at he
      unfold pre_death at he
      simp only [update_shake_phase_jump_pads, update_particles_phase_jump_pads,
        death_phase_jump_pads, jump_pad_phase_jump_pads] at he
      have h1 := (List.mem_filter.mp he).1
      simp only [gravity_portal_phase_jump_pads, speed_portal_phase_jump_pads,
        coin_phase_jump_pads, dust_anim_phase_jump_pads, mid_buffer_jump_pads] at h1
      rw [pre_resolve_jump_pads] at h1
      have h2 := (List.mem_filter.mp h1).2
      simpa using h2
  · intro ha
    have he := on_update_dead_eq rng dt s ha
    exact ⟨by rw [he]; simp, by rw [he]; simp, by rw [he]; simp, by rw [he]; simp, by rw [he]; simp⟩

theorem claim_C7_witness :
    c7_state.alive = true ∧
    ((⟨-300, 138, 30, 36⟩ : Sprite) ∉ (prune_phase c7_state).obstacles) ∧
    (∀ e ∈ (on_update rng0 (1 / 100) c7_state).obstacles, ¬(e.right < -200)) := by
  have h := claim_C7_prune rng0 (1 / 100) c7_state
  refine ⟨rfl, ?_, (h.2.2.2.2.2.1 rfl).1⟩
  intro hmem
  have h2 := ((h.1 ⟨-300, 138, 30, 36⟩).mp hmem).2
  apply h2
  norm_num [Sprite.right]

/-- C8: load_level raises its validation error exactly when the level object
lacks an "obstacles" key holding a list; when it fails, the json-driven setup
propagates the same error before any state is built; and any data containing
an obstacles list is returned unchanged. -/
theorem claim_C8_load_level (j : LevelJson) (tex : Textures) :
    (has_obstacles_list j = true → load_level j = .ok j) ∧
    (has_obstacles_list j = false →
      load_level j = .error levelErrMsg ∧ setup_from_json tex j = .error levelErrMsg) ∧
    (∀ msg, load_level j = .error msg → has_obstacles_list j = false) := by
  refine ⟨?_, ?_, ?_⟩
  · intro h; simp [load_level, h]
  · intro h
    have herr : load_level j = .error levelErrMsg := by simp [load_level, h]
    refine ⟨herr, ?_⟩
    unfold setup_from_json
    rw [herr]
    rfl
  · intro msg hmsg
    by_contra hno
    have h : has_obstacles_list j = true := by revert hno; cases has_obstacles_list j <;> simp
    simp [load_level, h] at hmsg

theorem claim_C8_witness :
    has_obstacles_list c8_good = true ∧ load_level c8_good = .ok c8_good ∧
    has_obstacles_list c8_bad = false ∧ load_level c8_bad = .error levelErrMsg ∧
    setup_from_json tex0 c8_bad = .error levelErrMsg := by
  have h1 := (claim_C8_load_level c8_good tex0).1 rfl
  have h2 := (claim_C8_load_level c8_bad tex0).2.1 rfl
  exact ⟨rfl, h1, rfl, h2.1, h2.2⟩

/-- The setup obstacle loop realizes the Level-Plan placement formula: the
i-th obstacle is centered at the start cursor plus all earlier gaps plus half
its own width. -/
theorem build_obstacles_eq_spec :
    ∀ (plan : List (ℤ × ℤ)) (x floor_y : ℚ),
      (build_obstacles plan x floor_y).1
        = (List.range plan.length).map (fun i =>
            ({ center_x := x + (((plan.take i).map (fun gw => (gw.1 : ℚ))).sum)
                 + ((plan.getD i (0, 0)).2 : ℚ) / 2,
               center_y := floor_y + OB_H / 2,
               width := ((plan.getD i (0, 0)).2 : ℚ),
               height := OB_H } : Sprite)) := by
  intro plan
  induction plan with
  | nil => intro x fy; rfl
  | cons gw rest ih =>
    intro x fy
    obtain ⟨g, w⟩ := gw
    rw [List.length_cons, List.range_succ_eq_map, List.map_cons, List.map_map]
    have hL : (build_obstacles ((g, w) :: rest) x fy).1
        = create_obstacle x (w : ℚ) fy :: (build_obstacles rest (x + (g : ℚ)) fy).1 := rfl
    rw [hL, ih (x + (g : ℚ)) fy]
    congr 1
    · simp [create_obstacle]
    · apply List.map_congr_left
      intro i _
      simp only [Function.comp_apply, List.getD_cons_succ, List.take_succ_cons,
        List.map_cons, List.sum_cons]
      simp only [Sprite.mk.injEq, and_true, true_and]
      ring

/-- C6: restart (setup) discards the previous state entirely and, for the
same level data, reproduces exactly the initial state the Level Plan
specifies: the obstacle sprites of the plan (same count and positions), the
player at the start position, score 0, alive, gravity direction +1, zero
velocity, and all particle pools and the screen shake cleared. -/
theorem claim_C6_restart (tex : Textures) (d : LevelData) (s1 s2 : GameState) :
    restart s1 tex d = restart s2 tex d ∧
    (restart s1 tex d).obstacles
      = spec_initial_obstacles (obstacle_plan d) ((d.floor_y.getD FLOOR_Y : ℤ) : ℚ) ∧
    (restart s1 tex d).obstacles.length = (obstacle_plan d).length ∧
    (restart s1 tex d).player.center_x = ((d.player_x.getD PLAYER_X : ℤ) : ℚ) + PLAYER_SIZE / 2 ∧
    (restart s1 tex d).player.center_y = ((d.floor_y.getD FLOOR_Y : ℤ) : ℚ) + PLAYER_SIZE / 2 ∧
    (restart s1 tex d).score = 0 ∧
    (restart s1 tex d).alive = true ∧
    (restart s1 tex d).gravity_dir = 1 ∧
    (restart s1 tex d).vel_y = 0 ∧
    (restart s1 tex d).time_alive = 0 ∧
    (restart s1 tex d).dust_particles = [] ∧
    (restart s1 tex d).sparkle_particles = [] ∧
    (restart s1 tex d).death_particles = [] ∧
    (restart s1 tex d).shake_time = 0 ∧
    (restart s1 tex d).shake_intensity = 0 := by
  have hobs : (restart s1 tex d).obstacles
      = spec_initial_obstacles (obstacle_plan d) ((d.floor_y.getD FLOOR_Y : ℤ) : ℚ) := by
    show (build_obstacles (obstacle_plan d) SPAWN_START ((d.floor_y.getD FLOOR_Y : ℤ) : ℚ)).1 = _
    rw [build_obstacles_eq_spec]
    rfl
  refine ⟨rfl, hobs, ?_, rfl, rfl, rfl, rfl, rfl, rfl, rfl, rfl, rfl, rfl, rfl, rfl⟩
  rw [hobs]
  simp [spec_initial_obstacles]

/-- C4: a jump request issued while airborne and outside the coyote grace is
buffered; if the player stays airborne and alive over ticks totalling at most
JUMP_BUFFER together with the landing frame, and the landing frame's ground
resolution grounds the player, the buffered jump executes at that tick's
buffer-resolution step: vertical velocity becomes JUMP_VEL times the gravity
direction, the grounded flag is cleared, and both forgiveness timers are
zeroed. -/
theorem claim_C4_jump_buffer (rngs : ℕ → Draws) (dts : List ℚ) (dtL : ℚ) (s0 : GameState)
    (halive : s0.alive = true) (hair : s0.on_ground = false) (hcoy : s0.coyote_timer = 0)
    (hpos : ∀ d ∈ dts, 0 < d) (hL : 0 < dtL)
    (hsum : dts.sum + dtL ≤ JUMP_BUFFER)
    (hmid : ∀ i, i < dts.length →
      (mid_resolve (dts.getD i 0) (run_ticks rngs (dts.take i) 0 (queue_jump s0))).on_ground = false ∧
      (run_ticks rngs (dts.take (i + 1)) 0 (queue_jump s0)).alive = true)
    (hland : (mid_resolve dtL (run_ticks rngs dts 0 (queue_jump s0))).on_ground = true) :
    (mid_buffer dtL (run_ticks rngs dts 0 (queue_jump s0))).vel_y
      = JUMP_VEL * (((run_ticks rngs dts 0 (queue_jump s0)).gravity_dir : ℤ) : ℚ) ∧
    (mid_buffer dtL (run_ticks rngs dts 0 (queue_jump s0))).on_ground = false ∧
    (mid_buffer dtL (run_ticks rngs dts 0 (queue_jump s0))).coyote_timer = 0 ∧
    (mid_buffer dtL (run_ticks rngs dts 0 (queue_jump s0))).jump_buffer_timer = 0 := by
  have hq : queue_jump s0 = { s0 with jump_buffer_timer := JUMP_BUFFER } := by
    simp [queue_jump, halive, hair, hcoy]
  have hb0 : dts.sum < (queue_jump s0).jump_buffer_timer := by
    rw [hq]
    show dts.sum < JUMP_BUFFER
    linarith
  have hinv := run_airborne rngs dts 0 (queue_jump s0)
    (by rw [hq]; exact halive) (by rw [hq]; exact hair) (by rw [hq]; exact hcoy)
    hb0 hpos hmid
  have hbK : 0 < (run_ticks rngs dts 0 (queue_jump s0)).jump_buffer_timer := by
    rw [hinv.2.2.2, hq]
    show (0 : ℚ) < JUMP_BUFFER - dts.sum
    linarith
  exact landing_effects dtL _ hbK hland

theorem claim_C4_witness :
    base_state.alive = true ∧ base_state.on_ground = false ∧ base_state.coyote_timer = 0 ∧
    ((0 : ℚ) < 1 / 20) ∧ (([] : List ℚ).sum + 1 / 20 ≤ JUMP_BUFFER) ∧
    (mid_resolve (1 / 20) (run_ticks (fun _ => rng0) [] 0 (queue_jump base_state))).on_ground = true ∧
    (mid_buffer (1 / 20) (run_ticks (fun _ => rng0) [] 0 (queue_jump base_state))).vel_y
      = JUMP_VEL * (((run_ticks (fun _ => rng0) [] 0 (queue_jump base_state)).gravity_dir : ℤ) : ℚ) := by
  have hland : (mid_resolve (1 / 20) (run_ticks (fun _ => rng0) [] 0 (queue_jump base_state))).on_ground = true := by
    norm_num [mid_resolve, pre_resolve, queue_jump, do_jump, time_phase, bg_phase, scroll_phase,
      extend_phase, recycle_phase, prune_phase, integrate_phase, resolve_phase, collides,
      Sprite.left, Sprite.right, Sprite.top, Sprite.bottom, max_tops, GRAVITY, WIDTH,
      JUMP_BUFFER, List.filter, base_state, rng0, run_ticks]
  refine ⟨rfl, rfl, rfl, by norm_num, by norm_num [JUMP_BUFFER], hland, ?_⟩
  exact (claim_C4_jump_buffer (fun _ => rng0) [] (1 / 20) base_state rfl rfl rfl
    (fun d hd => absurd hd (List.not_mem_nil d)) (by norm_num) (by norm_num [JUMP_BUFFER])
    (fun i hi => absurd hi (Nat.not_lt_zero i)) hland).1

end PyDash
